import Mathlib

/-!
Verification of the fleet-management backend (Flask + MongoDB document store).

The development shallowly embeds the route handlers that the claims concern:

* `src/routes/dashboard.py` — the alert reconciliation engine
  (`remove_inactive_employee_alerts`, `remove_inactive_truck_alerts`,
  `check_and_create_license_expiry_alerts` and its three truck siblings,
  `get_alerts`) and the analytics aggregator (`get_analytics`).
* `src/routes/trips.py` — trip and sub-trip CRUD (`create_trip`,
  `update_trip`, `create_subtrip`, `update_subtrip`, `delete_subtrip`,
  `update_trip_revenue`).
* `src/routes/clientpayment.py` — `update_client_payment`.

Modelling conventions:

* Mongo `_id` values are `Nat`; datetimes are `Int` seconds; floats are `ℚ`.
* A collection is a `List` of documents in insertion (natural) order.
  `find_one` is `List.find?`, `update_one` with an `_id` filter modifies the
  first document carrying that id, `update_many` modifies every match,
  `insert_one` appends.
* A JSON request field is an `Option` value: `none` means the key is absent.
  Numeric request fields hold the already-parsed float (`parse_float` turns a
  present but unparsable value into its default, which the callers set to 0).
* Dates stored by the app are real datetimes; a stored date field is
  `Option Int`, `none` standing for absent/null/unparsable (the
  `dateutil.parser` failure path in the dashboard module).
* Presentational fields (`title`, `message`, `created_at`, `updated_at`,
  the `DD/MM/YYYY` formatting) carry no logic any claim mentions and are
  omitted from the documents.
-/

/-- Owner of an alert document: the four check passes stamp either an
`employee_id` or a `truck_id` on the alerts they create. -/
inductive OwnerKind where
  | employee
  | truck
deriving DecidableEq, Repr

/-- The eight `type` values the reconciliation engine writes into alert
documents (dashboard.py lines 50, 78, 129, 156, 207, 234, 285, 312). -/
inductive AlertType where
  | license_expiry
  | license_expired
  | insurance_expiry
  | insurance_expired
  | fc_expiry
  | fc_expired
  | permit_expiry
  | permit_expired
deriving DecidableEq, Repr

/-- An `alerts`-collection document (fields the engine reads or writes). -/
structure Alert where
  id : Nat
  ownerKind : OwnerKind
  ownerId : Nat
  ownerNumber : String
  type : AlertType
  severity : String
  status : String
  alert_date : Int
deriving DecidableEq, Repr

/-- The `alerts` collection plus the id allocator and a running count of
effective writes (documents modified by `update_one`/`update_many` plus
documents inserted). -/
structure AlertsDB where
  alerts : List Alert
  nextId : Nat
  writes : Nat
deriving DecidableEq, Repr

/-- Filter `{owner_id: i, type: t, status: 'Active'}` used by the
`find_one`/`update_one` calls of the check passes. -/
def matchActive (k : OwnerKind) (i : Nat) (t : AlertType) (a : Alert) : Bool :=
  a.ownerKind == k && a.ownerId == i && a.type == t && a.status == "Active"

/-- Filter `{owner_id: i, status: 'Active'}` used by
`remove_inactive_employee_alerts` / `remove_inactive_truck_alerts`. -/
def matchActiveOwner (k : OwnerKind) (i : Nat) (a : Alert) : Bool :=
  a.ownerKind == k && a.ownerId == i && a.status == "Active"

/-- `{'$set': {'status': 'Inactive'}}`. -/
def setInactive (a : Alert) : Alert :=
  { a with status := "Inactive" }

/-- `update_one({'_id': id}, {'$set': {'status': 'Inactive'}})`: Mongo
modifies the first (under unique ids, the only) document with that id. -/
def deactivateFirstById (id : Nat) : List Alert → List Alert
  | [] => []
  | a :: rest =>
      if a.id == id then setInactive a :: rest
      else a :: deactivateFirstById id rest

/-- State-level `update_one` by id; the call sites only issue it for a
document just found Active, so it counts as one effective write. -/
def updateOneInactive (id : Nat) (s : AlertsDB) : AlertsDB :=
  { s with alerts := deactivateFirstById id s.alerts, writes := s.writes + 1 }

/-- `update_many(p, {'$set': {'status': 'Inactive'}})` on the list. -/
def deactivateMany (p : Alert → Bool) (l : List Alert) : List Alert :=
  l.map fun a => if p a then setInactive a else a

/-- State-level `update_many`: every matched document is an effective write
(all call sites match on `status: 'Active'`, so matched = modified). -/
def updateManyInactive (p : Alert → Bool) (s : AlertsDB) : AlertsDB :=
  { s with alerts := deactivateMany p s.alerts,
           writes := s.writes + (s.alerts.filter p).length }

/-- `insert_one`: append the document built from the freshly allocated id. -/
def insertAlert (mk : Nat → Alert) (s : AlertsDB) : AlertsDB :=
  { alerts := s.alerts ++ [mk s.nextId],
    nextId := s.nextId + 1,
    writes := s.writes + 1 }

/-- The entity view each check pass needs: id, `status`, the human-readable
number copied into the alert, and the monitored date field, already put
through the `dateutil` parse (`none` = absent / falsy / unparsable). -/
structure CEntity where
  id : Nat
  status : String
  number : String
  expiry : Option Int
deriving DecidableEq, Repr

/-- 30 days, the look-ahead horizon `soon = now + timedelta(days=30)`. -/
def thirty_days : Int := 30 * 86400

/-- Outcome of the branch chain in each `check_and_create_*` body:
no date configured / `expiry_date < now` / `expiry_date <= soon` / later. -/
inductive ExpiryClass where
  | noExpiry
  | expired
  | expiringSoon
  | notYetDue
deriving DecidableEq, Repr

/-- The classification performed by the `if expiry_date < now / elif
expiry_date <= soon / else` chain (dashboard.py lines 54, 63, 85, 102). -/
def classifyExpiry (now : Int) (expiry_date : Option Int) : ExpiryClass :=
  match expiry_date with
  | none => .noExpiry
  | some d =>
      if d < now then .expired
      else if d ≤ now + thirty_days then .expiringSoon
      else .notYetDue

/-- The alert document inserted by a check pass (owner reference, number,
type, severity, `status: 'Active'`, `alert_date := expiry_date`). -/
def mkAlert (k : OwnerKind) (e : CEntity) (t : AlertType) (sev : String)
    (d : Int) (id : Nat) : Alert :=
  { id := id, ownerKind := k, ownerId := e.id, ownerNumber := e.number,
    type := t, severity := sev, status := "Active", alert_date := d }

/-- The `if existing: update_one(existing._id, status := Inactive)` idiom:
deactivate the Active alert of the given key found by `find_one`, if any. -/
def deactivateExistingOne (k : OwnerKind) (i : Nat) (t : AlertType)
    (s : AlertsDB) : AlertsDB :=
  match s.alerts.find? (matchActive k i t) with
  | some a => updateOneInactive a.id s
  | none => s

/-- Tail of the expired branch: `find_one` for an Active "expired" alert and
insert a `danger` alert when none exists. -/
def expiredTail (k : OwnerKind) (e : CEntity) (tX : AlertType) (d : Int)
    (s1 : AlertsDB) : AlertsDB :=
  match s1.alerts.find? (matchActive k e.id tX) with
  | some _ => s1
  | none => insertAlert (mkAlert k e tX "danger" d) s1

/-- Body of the per-entity loop shared by the four `check_and_create_*`
functions (dashboard.py lines 40–112 and their three textual copies for
trucks): `tE` is the "expiring soon" type, `tX` the "expired" type.
`existing = find_one({owner, type: tE, status: Active})` is read from the
pre-state `s`, exactly as the source reads it before branching. -/
def processExpiryEntity (k : OwnerKind) (tE tX : AlertType) (now : Int)
    (s : AlertsDB) (e : CEntity) : AlertsDB :=
  match e.expiry with
  | none => deactivateExistingOne k e.id tE s
  | some d =>
      if d < now then
        expiredTail k e tX d (deactivateExistingOne k e.id tE s)
      else if d ≤ now + thirty_days then
        match s.alerts.find? (matchActive k e.id tE) with
        | some _ => updateManyInactive (matchActive k e.id tX) s
        | none =>
            insertAlert (mkAlert k e tE "warning" d)
              (updateManyInactive (matchActive k e.id tX) s)
      else
        updateManyInactive (matchActive k e.id tX)
          (deactivateExistingOne k e.id tE s)

/-- A `check_and_create_*_alerts` pass: iterate the entities returned by
`find_all({'status': 'Active'})`, reconciling each in turn. -/
def checkAndCreateExpiryAlerts (k : OwnerKind) (tE tX : AlertType)
    (now : Int) (entities : List CEntity) (s : AlertsDB) : AlertsDB :=
  (entities.filter fun e => e.status == "Active").foldl
    (processExpiryEntity k tE tX now) s

/-- A `remove_inactive_*_alerts` pass: for every entity returned by
`find_all({'status': 'Inactive'})`, `update_many` all its Active alerts to
Inactive (dashboard.py lines 17–33). -/
def removeInactiveAlerts (k : OwnerKind) (entities : List CEntity)
    (s : AlertsDB) : AlertsDB :=
  (entities.filter fun e => e.status == "Inactive").foldl
    (fun s e => updateManyInactive (matchActiveOwner k e.id) s) s

/-- An `employees` document (fields read by the dashboard and trips routes). -/
structure Employee where
  id : Nat
  status : String
  position : String
  employee_number : String
  license_expiry : Option Int
deriving DecidableEq, Repr

/-- A `trucks` document (fields read by the dashboard routes). -/
structure Truck where
  id : Nat
  status : String
  truck_number : String
  insurance_expiry : Option Int
  fc_expiry : Option Int
  permit_expiry : Option Int
deriving DecidableEq, Repr

def Employee.toC (e : Employee) : CEntity :=
  ⟨e.id, e.status, e.employee_number, e.license_expiry⟩

def Truck.toInsuranceC (t : Truck) : CEntity :=
  ⟨t.id, t.status, t.truck_number, t.insurance_expiry⟩

def Truck.toFcC (t : Truck) : CEntity :=
  ⟨t.id, t.status, t.truck_number, t.fc_expiry⟩

def Truck.toPermitC (t : Truck) : CEntity :=
  ⟨t.id, t.status, t.truck_number, t.permit_expiry⟩

def remove_inactive_employee_alerts (emps : List Employee) (s : AlertsDB) :
    AlertsDB :=
  removeInactiveAlerts .employee (emps.map Employee.toC) s

def remove_inactive_truck_alerts (trucks : List Truck) (s : AlertsDB) :
    AlertsDB :=
  removeInactiveAlerts .truck (trucks.map Truck.toInsuranceC) s

def check_and_create_license_expiry_alerts (now : Int)
    (emps : List Employee) (s : AlertsDB) : AlertsDB :=
  checkAndCreateExpiryAlerts .employee .license_expiry .license_expired now
    (emps.map Employee.toC) s

def check_and_create_insurance_expiry_alerts (now : Int)
    (trucks : List Truck) (s : AlertsDB) : AlertsDB :=
  checkAndCreateExpiryAlerts .truck .insurance_expiry .insurance_expired now
    (trucks.map Truck.toInsuranceC) s

def check_and_create_fc_expiry_alerts (now : Int)
    (trucks : List Truck) (s : AlertsDB) : AlertsDB :=
  checkAndCreateExpiryAlerts .truck .fc_expiry .fc_expired now
    (trucks.map Truck.toFcC) s

def check_and_create_permit_expiry_alerts (now : Int)
    (trucks : List Truck) (s : AlertsDB) : AlertsDB :=
  checkAndCreateExpiryAlerts .truck .permit_expiry .permit_expired now
    (trucks.map Truck.toPermitC) s

/-- The reconciliation prelude of `get_alerts` (dashboard.py lines 374–379):
the two inactive-entity sweeps followed by the four check passes. -/
def get_alerts_reconcile (now : Int) (emps : List Employee)
    (trucks : List Truck) (s : AlertsDB) : AlertsDB :=
  let s := remove_inactive_employee_alerts emps s
  let s := remove_inactive_truck_alerts trucks s
  let s := check_and_create_license_expiry_alerts now emps s
  let s := check_and_create_insurance_expiry_alerts now trucks s
  let s := check_and_create_fc_expiry_alerts now trucks s
  let s := check_and_create_permit_expiry_alerts now trucks s
  s

/-- Number of Active alert documents carrying a given
(owner kind, owner id, alert type) key. -/
def countActive (k : OwnerKind) (i : Nat) (t : AlertType)
    (l : List Alert) : Nat :=
  (l.filter (matchActive k i t)).length

/-- Number of Active alert documents referencing a given owner, any type. -/
def countActiveOwner (k : OwnerKind) (i : Nat) (l : List Alert) : Nat :=
  (l.filter (matchActiveOwner k i)).length

/-- The at-most-one-active-alert invariant: for every
(entity, attribute, alert-kind) key at most one Active document. -/
def AtMostOneActive (l : List Alert) : Prop :=
  ∀ k i t, countActive k i t l ≤ 1

/-- Well-formed store state: alert ids are pairwise distinct and the id
allocator is ahead of every stored id (Mongo `_id` uniqueness). -/
def WfAlertsDB (s : AlertsDB) : Prop :=
  (s.alerts.map Alert.id).Nodup ∧ ∀ a ∈ s.alerts, a.id < s.nextId

/-! ### Counting lemmas for the alert-store primitives -/

lemma matchActive_setInactive (k : OwnerKind) (i : Nat) (t : AlertType)
    (a : Alert) : matchActive k i t (setInactive a) = false := by
  simp [matchActive, setInactive]

lemma matchActiveOwner_setInactive (k : OwnerKind) (i : Nat) (a : Alert) :
    matchActiveOwner k i (setInactive a) = false := by
  simp [matchActiveOwner, setInactive]

lemma filter_deactivateMany_le (p q : Alert → Bool)
    (hp : ∀ a, p (setInactive a) = false) (l : List Alert) :
    ((deactivateMany q l).filter p).length ≤ (l.filter p).length := by
  induction l with
  | nil => simp [deactivateMany]
  | cons a rest ih =>
      by_cases hq : q a = true
      · by_cases hpa : p a = true
        · simp [deactivateMany, hq, hpa, hp, List.filter_cons] at *
          omega
        · simp [deactivateMany, hq, hp, List.filter_cons,
            Bool.not_eq_true] at *
          simpa [hpa] using ih
      · simp only [Bool.not_eq_true] at hq
        by_cases hpa : p a = true
        · simp [deactivateMany, hq, hpa, List.filter_cons] at *
          omega
        · simp only [Bool.not_eq_true] at hpa
          simp [deactivateMany, hq, hpa, List.filter_cons] at *
          exact ih

lemma filter_deactivateMany_disjoint (p q : Alert → Bool)
    (hp : ∀ a, p (setInactive a) = false)
    (hdisj : ∀ a, q a = true → p a = false) (l : List Alert) :
    (deactivateMany q l).filter p = l.filter p := by
  induction l with
  | nil => simp [deactivateMany]
  | cons a rest ih =>
      by_cases hq : q a = true
      · simp [deactivateMany, hq, hp, hdisj a hq, List.filter_cons] at *
        exact ih
      · simp only [Bool.not_eq_true] at hq
        simp [deactivateMany, hq, List.filter_cons] at *
        by_cases hpa : p a = true
        · simp [hpa, ih]
        · simp only [Bool.not_eq_true] at hpa
          simp [hpa, ih]

lemma filter_deactivateFirstById_le (p : Alert → Bool) (id : Nat)
    (hp : ∀ a, p (setInactive a) = false) (l : List Alert) :
    ((deactivateFirstById id l).filter p).length ≤ (l.filter p).length := by
  induction l with
  | nil => simp [deactivateFirstById]
  | cons a rest ih =>
      by_cases hid : (a.id == id) = true
      · by_cases hpa : p a = true
        · simp [deactivateFirstById, hid, hpa, hp, List.filter_cons]
        · simp only [Bool.not_eq_true] at hpa
          simp [deactivateFirstById, hid, hpa, hp, List.filter_cons]
      · simp only [Bool.not_eq_true] at hid
        by_cases hpa : p a = true
        · simp [deactivateFirstById, hid, hpa, List.filter_cons]
          omega
        · simp only [Bool.not_eq_true] at hpa
          simp [deactivateFirstById, hid, hpa, List.filter_cons]
          exact ih

lemma filter_deactivateFirstById_disjoint (p : Alert → Bool) (id : Nat)
    (hp : ∀ a, p (setInactive a) = false) (l : List Alert)
    (hdisj : ∀ a ∈ l, a.id = id → p a = false) :
    (deactivateFirstById id l).filter p = l.filter p := by
  induction l with
  | nil => simp [deactivateFirstById]
  | cons a rest ih =>
      by_cases hid : (a.id == id) = true
      · have ha : p a = false :=
          hdisj a (List.mem_cons_self a rest) (by simpa using hid)
        simp [deactivateFirstById, hid, ha, hp, List.filter_cons]
      · simp only [Bool.not_eq_true] at hid
        have ih' := ih fun a ha h => hdisj a (List.mem_cons_of_mem _ ha) h
        by_cases hpa : p a = true
        · simp [deactivateFirstById, hid, hpa, List.filter_cons, ih']
        · simp only [Bool.not_eq_true] at hpa
          simp [deactivateFirstById, hid, hpa, List.filter_cons, ih']

lemma filter_deactivateFirstById_found (p : Alert → Bool) (a : Alert)
    (hp : ∀ b, p (setInactive b) = false) (l : List Alert)
    (hids : (l.map Alert.id).Nodup)
    (hfind : l.find? p = some a) :
    ((deactivateFirstById a.id l).filter p).length
      = (l.filter p).length - 1 := by
  induction l with
  | nil => simp at hfind
  | cons b rest ih =>
      by_cases hpb : p b = true
      · have hba : b = a := by
          have := hfind
          rw [List.find?_cons_of_pos _ hpb] at this
          exact Option.some.inj this
        subst hba
        simp [deactivateFirstById, hpb, hp, List.filter_cons]
      · simp only [Bool.not_eq_true] at hpb
        have hfind' : rest.find? p = some a := by
          have := hfind
          rwa [List.find?_cons_of_neg _ (by simp [hpb])] at this
        have hmem : a ∈ rest := List.mem_of_find?_eq_some hfind'
        have hne : ¬(b.id == a.id) = true := by
          simp only [beq_iff_eq]
          intro hEq
          have : b.id ∈ rest.map Alert.id := hEq ▸ List.mem_map_of_mem _ hmem
          exact (List.nodup_cons.mp hids).1 this
        have ih' := ih (List.nodup_cons.mp hids).2 hfind'
        simp [deactivateFirstById, hne, hpb, List.filter_cons, ih']

lemma filter_length_zero_of_find?_none (p : Alert → Bool) (l : List Alert)
    (h : l.find? p = none) : (l.filter p).length = 0 := by
  have : l.filter p = [] :=
    List.filter_eq_nil_iff.mpr fun a ha => by
      simpa using List.find?_eq_none.mp h a ha
  simp [this]

lemma find?_none_of_filter_length_zero (p : Alert → Bool) (l : List Alert)
    (h : (l.filter p).length = 0) : l.find? p = none := by
  rw [List.find?_eq_none]
  intro a ha
  have : l.filter p = [] := List.length_eq_zero.mp h
  intro hpa
  have : a ∈ l.filter p := List.mem_filter.mpr ⟨ha, hpa⟩
  simp_all

lemma filter_append_singleton (p : Alert → Bool) (l : List Alert)
    (a : Alert) :
    ((l ++ [a]).filter p).length
      = (l.filter p).length + (if p a then 1 else 0) := by
  by_cases hpa : p a = true
  · simp [List.filter_append, List.filter_cons, hpa]
  · simp only [Bool.not_eq_true] at hpa
    simp [List.filter_append, List.filter_cons, hpa]

/-! ### Preservation of the at-most-one-active invariant -/

lemma countActive_updateOneInactive_le (k : OwnerKind) (i : Nat)
    (t : AlertType) (id : Nat) (s : AlertsDB) :
    countActive k i t (updateOneInactive id s).alerts
      ≤ countActive k i t s.alerts :=
  filter_deactivateFirstById_le _ id (matchActive_setInactive k i t) s.alerts

lemma countActive_updateManyInactive_le (k : OwnerKind) (i : Nat)
    (t : AlertType) (q : Alert → Bool) (s : AlertsDB) :
    countActive k i t (updateManyInactive q s).alerts
      ≤ countActive k i t s.alerts :=
  filter_deactivateMany_le _ q (matchActive_setInactive k i t) s.alerts

lemma AtMostOneActive_updateOneInactive (id : Nat) (s : AlertsDB)
    (h : AtMostOneActive s.alerts) :
    AtMostOneActive (updateOneInactive id s).alerts :=
  fun k i t => le_trans (countActive_updateOneInactive_le k i t id s) (h k i t)

lemma AtMostOneActive_updateManyInactive (q : Alert → Bool) (s : AlertsDB)
    (h : AtMostOneActive s.alerts) :
    AtMostOneActive (updateManyInactive q s).alerts :=
  fun k i t => le_trans (countActive_updateManyInactive_le k i t q s) (h k i t)

lemma AtMostOneActive_deactivateExistingOne (k : OwnerKind) (i : Nat)
    (t : AlertType) (s : AlertsDB) (h : AtMostOneActive s.alerts) :
    AtMostOneActive (deactivateExistingOne k i t s).alerts := by
  unfold deactivateExistingOne
  cases hf : s.alerts.find? (matchActive k i t) with
  | none => exact h
  | some a => exact AtMostOneActive_updateOneInactive a.id s h

lemma matchActive_mkAlert_iff (k' : OwnerKind) (i' : Nat) (t' : AlertType)
    (k : OwnerKind) (e : CEntity) (t : AlertType) (sev : String) (d : Int)
    (id : Nat) :
    matchActive k' i' t' (mkAlert k e t sev d id) = true
      ↔ (k = k' ∧ e.id = i' ∧ t = t') := by
  simp [matchActive, mkAlert, and_assoc]

lemma AtMostOneActive_insertAlert (k : OwnerKind) (e : CEntity)
    (t : AlertType) (sev : String) (d : Int) (s : AlertsDB)
    (h : AtMostOneActive s.alerts)
    (hnone : s.alerts.find? (matchActive k e.id t) = none) :
    AtMostOneActive (insertAlert (mkAlert k e t sev d) s).alerts := by
  intro k' i' t'
  have hcount := filter_append_singleton (matchActive k' i' t') s.alerts
    (mkAlert k e t sev d s.nextId)
  simp only [countActive, insertAlert] at *
  rw [hcount]
  by_cases hm : matchActive k' i' t' (mkAlert k e t sev d s.nextId) = true
  · obtain ⟨hk, hi, ht⟩ := (matchActive_mkAlert_iff k' i' t' k e t sev d
      s.nextId).mp hm
    subst hk
    subst hi
    subst ht
    have h0 := filter_length_zero_of_find?_none _ _ hnone
    simp [hm, h0]
  · simp only [Bool.not_eq_true] at hm
    simp only [hm, if_false]
    simpa using h k' i' t'

lemma AtMostOneActive_expiredTail (k : OwnerKind) (e : CEntity)
    (tX : AlertType) (d : Int) (s1 : AlertsDB)
    (h : AtMostOneActive s1.alerts) :
    AtMostOneActive (expiredTail k e tX d s1).alerts := by
  unfold expiredTail
  cases hf : s1.alerts.find? (matchActive k e.id tX) with
  | some a => exact h
  | none => exact AtMostOneActive_insertAlert k e tX "danger" d s1 h hf

lemma AtMostOneActive_processExpiryEntity (k : OwnerKind) (tE tX : AlertType)
    (now : Int) (s : AlertsDB) (e : CEntity)
    (h : AtMostOneActive s.alerts) :
    AtMostOneActive (processExpiryEntity k tE tX now s e).alerts := by
  unfold processExpiryEntity
  cases hx : e.expiry with
  | none => exact AtMostOneActive_deactivateExistingOne k e.id tE s h
  | some d =>
      by_cases h1 : d < now
      · simp only [h1, if_true]
        exact AtMostOneActive_expiredTail k e tX d _
          (AtMostOneActive_deactivateExistingOne k e.id tE s h)
      · simp only [h1, if_false]
        by_cases h2 : d ≤ now + thirty_days
        · simp only [h2, if_true]
          cases hf : s.alerts.find? (matchActive k e.id tE) with
          | some a => exact AtMostOneActive_updateManyInactive _ s h
          | none =>
              apply AtMostOneActive_insertAlert
              · exact AtMostOneActive_updateManyInactive _ s h
              · have h0 := filter_length_zero_of_find?_none _ _ hf
                have hle : ((updateManyInactive (matchActive k e.id tX)
                    s).alerts.filter (matchActive k e.id tE)).length ≤ 0 :=
                  le_trans (countActive_updateManyInactive_le k e.id tE _ s)
                    (le_of_eq h0)
                exact find?_none_of_filter_length_zero _ _ (Nat.le_zero.mp hle)
        · simp only [h2, if_false]
          exact AtMostOneActive_updateManyInactive _ _
            (AtMostOneActive_deactivateExistingOne k e.id tE s h)

lemma AtMostOneActive_checkAndCreate (k : OwnerKind) (tE tX : AlertType)
    (now : Int) (entities : List CEntity) (s : AlertsDB)
    (h : AtMostOneActive s.alerts) :
    AtMostOneActive (checkAndCreateExpiryAlerts k tE tX now entities s).alerts := by
  unfold checkAndCreateExpiryAlerts
  generalize (entities.filter fun e => e.status == "Active") = es
  induction es generalizing s with
  | nil => exact h
  | cons e rest ih =>
      exact ih _ (AtMostOneActive_processExpiryEntity k tE tX now s e h)

lemma AtMostOneActive_removeInactive (k : OwnerKind)
    (entities : List CEntity) (s : AlertsDB)
    (h : AtMostOneActive s.alerts) :
    AtMostOneActive (removeInactiveAlerts k entities s).alerts := by
  unfold removeInactiveAlerts
  generalize (entities.filter fun e => e.status == "Inactive") = es
  induction es generalizing s with
  | nil => exact h
  | cons e rest ih =>
      exact ih _ (AtMostOneActive_updateManyInactive _ s h)

lemma AtMostOneActive_get_alerts_reconcile (now : Int)
    (emps : List Employee) (trucks : List Truck) (s : AlertsDB)
    (h : AtMostOneActive s.alerts) :
    AtMostOneActive (get_alerts_reconcile now emps trucks s).alerts := by
  unfold get_alerts_reconcile
  unfold remove_inactive_employee_alerts remove_inactive_truck_alerts
  unfold check_and_create_license_expiry_alerts
  unfold check_and_create_insurance_expiry_alerts
  unfold check_and_create_fc_expiry_alerts
  unfold check_and_create_permit_expiry_alerts
  apply AtMostOneActive_checkAndCreate
  apply AtMostOneActive_checkAndCreate
  apply AtMostOneActive_checkAndCreate
  apply AtMostOneActive_checkAndCreate
  apply AtMostOneActive_removeInactive
  apply AtMostOneActive_removeInactive
  exact h

/-- C1: for every (owning entity, monitored attribute, alert-kind) triple,
a sequential run of the reconciliation pass invoked by `GET /dashboard/alerts`
leaves at most one Active alert document per key, and each per-entity
reconciliation step preserves this at-most-one-active property. -/
theorem alert_reconciliation_at_most_one_active (now : Int)
    (emps : List Employee) (trucks : List Truck) (s : AlertsDB)
    (h : AtMostOneActive s.alerts) :
    AtMostOneActive (get_alerts_reconcile now emps trucks s).alerts ∧
    ∀ k tE tX e, AtMostOneActive (processExpiryEntity k tE tX now s e).alerts :=
  ⟨AtMostOneActive_get_alerts_reconcile now emps trucks s h,
   fun k tE tX e => AtMostOneActive_processExpiryEntity k tE tX now s e h⟩

/-- Witness for C1: concrete run with one active employee whose license
expired five days before `now`, starting from an empty alerts collection. -/
theorem alert_reconciliation_at_most_one_active_witness :
    AtMostOneActive (get_alerts_reconcile 0
        [⟨1, "Active", "Driver", "E1", some (-432000)⟩] [] ⟨[], 0, 0⟩).alerts ∧
    ∀ k tE tX e,
      AtMostOneActive (processExpiryEntity k tE tX 0 ⟨[], 0, 0⟩ e).alerts :=
  alert_reconciliation_at_most_one_active 0
    [⟨1, "Active", "Driver", "E1", some (-432000)⟩] [] ⟨[], 0, 0⟩
    (fun _ _ _ => by simp [countActive])

/-! ### Idempotence of the reconciliation pass -/

/-- Normal form of the key filter. -/
lemma matchActive_iff (k : OwnerKind) (i : Nat) (t : AlertType) (a : Alert) :
    matchActive k i t a = true
      ↔ a.ownerKind = k ∧ a.ownerId = i ∧ a.type = t ∧ a.status = "Active" := by
  simp [matchActive, and_assoc]

/-- Normal form of the owner filter. -/
lemma matchActiveOwner_iff (k : OwnerKind) (i : Nat) (a : Alert) :
    matchActiveOwner k i a = true
      ↔ a.ownerKind = k ∧ a.ownerId = i ∧ a.status = "Active" := by
  simp [matchActiveOwner, and_assoc]

/-- The post-state a check pass leaves (and a no-op re-run requires) for one
entity, phrased through the branch classification: the Active-alert counts
for the entity's two alert kinds after reconciliation. -/
def EntityStable (k : OwnerKind) (tE tX : AlertType) (now : Int) (i : Nat)
    (expiry : Option Int) (l : List Alert) : Prop :=
  match classifyExpiry now expiry with
  | .noExpiry => countActive k i tE l = 0
  | .expired => countActive k i tE l = 0 ∧ countActive k i tX l ≠ 0
  | .expiringSoon => countActive k i tE l ≠ 0 ∧ countActive k i tX l = 0
  | .notYetDue => countActive k i tE l = 0 ∧ countActive k i tX l = 0

/-- The full post-state of `get_alerts_reconcile`, per entity of each pass. -/
def AllStable (now : Int) (emps : List Employee) (trucks : List Truck)
    (l : List Alert) : Prop :=
  (∀ e ∈ emps, e.status = "Inactive" →
     countActiveOwner .employee e.id l = 0) ∧
  (∀ e ∈ emps, e.status = "Active" →
     EntityStable .employee .license_expiry .license_expired now
       e.id e.license_expiry l) ∧
  (∀ t ∈ trucks, t.status = "Inactive" →
     countActiveOwner .truck t.id l = 0) ∧
  (∀ t ∈ trucks, t.status = "Active" →
     EntityStable .truck .insurance_expiry .insurance_expired now
       t.id t.insurance_expiry l ∧
     EntityStable .truck .fc_expiry .fc_expired now t.id t.fc_expiry l ∧
     EntityStable .truck .permit_expiry .permit_expired now
       t.id t.permit_expiry l)

lemma deactivateMany_eq_self (p : Alert → Bool) (l : List Alert)
    (h : ∀ a ∈ l, p a = false) : deactivateMany p l = l := by
  induction l with
  | nil => rfl
  | cons a rest ih =>
      have ha := h a (List.mem_cons_self a rest)
      simp [deactivateMany] at ih ⊢
      exact ⟨by simp [ha], ih fun b hb => h b (List.mem_cons_of_mem _ hb)⟩

lemma updateManyInactive_eq_self (p : Alert → Bool) (s : AlertsDB)
    (h : (s.alerts.filter p).length = 0) : updateManyInactive p s = s := by
  have hnil : s.alerts.filter p = [] := List.length_eq_zero.mp h
  have hall : ∀ a ∈ s.alerts, p a = false := by
    intro a ha
    by_cases hpa : p a = true
    · have : a ∈ s.alerts.filter p := List.mem_filter.mpr ⟨ha, hpa⟩
      simp [hnil] at this
    · simpa using hpa
  have hmap := deactivateMany_eq_self p s.alerts hall
  cases s with
  | mk alerts nextId writes => simp [updateManyInactive, hmap, hnil]

lemma find?_some_of_count_ne_zero (p : Alert → Bool) (l : List Alert)
    (h : (l.filter p).length ≠ 0) : ∃ a, l.find? p = some a := by
  have hne : l.filter p ≠ [] := fun hc => h (by simp [hc])
  obtain ⟨a, ha⟩ := List.exists_mem_of_ne_nil _ hne
  have hmem := List.mem_filter.mp ha
  have : (l.find? p).isSome := List.find?_isSome.mpr ⟨a, hmem.1, hmem.2⟩
  exact Option.isSome_iff_exists.mp this

lemma count_ne_zero_of_find?_some (p : Alert → Bool) (l : List Alert)
    (a : Alert) (h : l.find? p = some a) : (l.filter p).length ≠ 0 := by
  have hmem : a ∈ l := List.mem_of_find?_eq_some h
  have hpa : p a = true := List.find?_some h
  have : a ∈ l.filter p := List.mem_filter.mpr ⟨hmem, hpa⟩
  intro hc
  rw [List.length_eq_zero.mp hc] at this
  simp at this

/-- A per-entity step whose stable condition already holds is the identity. -/
lemma processExpiryEntity_eq_self (k : OwnerKind) (tE tX : AlertType)
    (now : Int) (s : AlertsDB) (e : CEntity)
    (hst : EntityStable k tE tX now e.id e.expiry s.alerts) :
    processExpiryEntity k tE tX now s e = s := by
  unfold processExpiryEntity
  cases hx : e.expiry with
  | none =>
      rw [hx] at hst
      simp only [EntityStable, classifyExpiry] at hst
      unfold deactivateExistingOne
      rw [find?_none_of_filter_length_zero _ _ hst]
  | some d =>
      rw [hx] at hst
      simp only [EntityStable, classifyExpiry] at hst
      by_cases h1 : d < now
      · simp only [h1, if_true] at hst ⊢
        obtain ⟨hE, hX⟩ := hst
        have hdeo : deactivateExistingOne k e.id tE s = s := by
          unfold deactivateExistingOne
          rw [find?_none_of_filter_length_zero _ _ hE]
        rw [hdeo]
        unfold expiredTail
        obtain ⟨a, ha⟩ := find?_some_of_count_ne_zero _ _ hX
        rw [ha]
      · by_cases h2 : d ≤ now + thirty_days
        · simp only [h1, h2, if_true, if_false] at hst ⊢
          obtain ⟨hE, hX⟩ := hst
          obtain ⟨a, ha⟩ := find?_some_of_count_ne_zero _ _ hE
          rw [ha, updateManyInactive_eq_self _ _ hX]
        · simp only [h1, h2, if_false] at hst ⊢
          obtain ⟨hE, hX⟩ := hst
          have hdeo : deactivateExistingOne k e.id tE s = s := by
            unfold deactivateExistingOne
            rw [find?_none_of_filter_length_zero _ _ hE]
          rw [hdeo, updateManyInactive_eq_self _ _ hX]

lemma ids_deactivateFirstById (id : Nat) (l : List Alert) :
    (deactivateFirstById id l).map Alert.id = l.map Alert.id := by
  induction l with
  | nil => rfl
  | cons a rest ih =>
      by_cases hid : (a.id == id) = true
      · simp [deactivateFirstById, hid, setInactive]
      · simp only [Bool.not_eq_true] at hid
        simp [deactivateFirstById, hid, ih]

lemma ids_deactivateMany (p : Alert → Bool) (l : List Alert) :
    (deactivateMany p l).map Alert.id = l.map Alert.id := by
  induction l with
  | nil => rfl
  | cons a rest ih =>
      by_cases hp : p a = true
      · simp [deactivateMany, hp, setInactive] at ih ⊢
        exact ih
      · simp only [Bool.not_eq_true] at hp
        simp [deactivateMany, hp] at ih ⊢
        exact ih

lemma WfAlertsDB_updateOneInactive (id : Nat) (s : AlertsDB)
    (h : WfAlertsDB s) : WfAlertsDB (updateOneInactive id s) := by
  obtain ⟨h1, h2⟩ := h
  constructor
  · simpa [updateOneInactive, ids_deactivateFirstById] using h1
  · intro a ha
    have hmem : a.id ∈ (deactivateFirstById id s.alerts).map Alert.id :=
      List.mem_map_of_mem _ ha
    rw [ids_deactivateFirstById] at hmem
    obtain ⟨b, hb, hba⟩ := List.mem_map.mp hmem
    simpa [updateOneInactive, ← hba] using h2 b hb

lemma WfAlertsDB_updateManyInactive (q : Alert → Bool) (s : AlertsDB)
    (h : WfAlertsDB s) : WfAlertsDB (updateManyInactive q s) := by
  obtain ⟨h1, h2⟩ := h
  constructor
  · simpa [updateManyInactive, ids_deactivateMany] using h1
  · intro a ha
    have hmem : a.id ∈ (deactivateMany q s.alerts).map Alert.id :=
      List.mem_map_of_mem _ ha
    rw [ids_deactivateMany] at hmem
    obtain ⟨b, hb, hba⟩ := List.mem_map.mp hmem
    simpa [updateManyInactive, ← hba] using h2 b hb

lemma WfAlertsDB_insertAlert (mk : Nat → Alert) (s : AlertsDB)
    (h : WfAlertsDB s) (hid : ∀ n, (mk n).id = n) :
    WfAlertsDB (insertAlert mk s) := by
  obtain ⟨h1, h2⟩ := h
  constructor
  · simp only [insertAlert, List.map_append, List.map_cons, List.map_nil, hid]
    rw [List.nodup_append]
    refine ⟨h1, List.nodup_singleton _, ?_⟩
    intro x hx hy
    simp only [List.mem_singleton] at hy
    subst hy
    obtain ⟨b, hb, hbx⟩ := List.mem_map.mp hx
    have := h2 b hb
    omega
  · intro a ha
    simp only [insertAlert, List.mem_append, List.mem_singleton] at ha
    rcases ha with ha | ha
    · have := h2 a ha
      simp only [insertAlert]
      omega
    · subst ha
      simp [insertAlert, hid]

lemma WfAlertsDB_deactivateExistingOne (k : OwnerKind) (i : Nat)
    (t : AlertType) (s : AlertsDB) (h : WfAlertsDB s) :
    WfAlertsDB (deactivateExistingOne k i t s) := by
  unfold deactivateExistingOne
  cases s.alerts.find? (matchActive k i t) with
  | none => exact h
  | some a => exact WfAlertsDB_updateOneInactive a.id s h

lemma mkAlert_id (k : OwnerKind) (e : CEntity) (t : AlertType) (sev : String)
    (d : Int) (n : Nat) : (mkAlert k e t sev d n).id = n := rfl

lemma WfAlertsDB_expiredTail (k : OwnerKind) (e : CEntity) (tX : AlertType)
    (d : Int) (s1 : AlertsDB) (h : WfAlertsDB s1) :
    WfAlertsDB (expiredTail k e tX d s1) := by
  unfold expiredTail
  cases s1.alerts.find? (matchActive k e.id tX) with
  | some a => exact h
  | none => exact WfAlertsDB_insertAlert _ s1 h (mkAlert_id k e tX "danger" d)

lemma WfAlertsDB_processExpiryEntity (k : OwnerKind) (tE tX : AlertType)
    (now : Int) (s : AlertsDB) (e : CEntity) (h : WfAlertsDB s) :
    WfAlertsDB (processExpiryEntity k tE tX now s e) := by
  unfold processExpiryEntity
  cases e.expiry with
  | none => exact WfAlertsDB_deactivateExistingOne k e.id tE s h
  | some d =>
      by_cases h1 : d < now
      · simp only [h1, if_true]
        exact WfAlertsDB_expiredTail k e tX d _
          (WfAlertsDB_deactivateExistingOne k e.id tE s h)
      · by_cases h2 : d ≤ now + thirty_days
        · simp only [h1, h2, if_true, if_false]
          cases s.alerts.find? (matchActive k e.id tE) with
          | some a => exact WfAlertsDB_updateManyInactive _ s h
          | none =>
              exact WfAlertsDB_insertAlert _ _
                (WfAlertsDB_updateManyInactive _ s h)
                (mkAlert_id k e tE "warning" d)
        · simp only [h1, h2, if_false]
          exact WfAlertsDB_updateManyInactive _ _
            (WfAlertsDB_deactivateExistingOne k e.id tE s h)

lemma filter_deactivateMany_self (p : Alert → Bool)
    (hp : ∀ a, p (setInactive a) = false) (l : List Alert) :
    (deactivateMany p l).filter p = [] := by
  induction l with
  | nil => rfl
  | cons a rest ih =>
      by_cases hpa : p a = true
      · simp [deactivateMany, hpa, hp, List.filter_cons] at ih ⊢
        exact ih
      · simp only [Bool.not_eq_true] at hpa
        simp [deactivateMany, hpa, List.filter_cons] at ih ⊢
        exact ih

lemma countActive_deactivateExistingOne_self (k : OwnerKind) (i : Nat)
    (t : AlertType) (s : AlertsDB)
    (hids : (s.alerts.map Alert.id).Nodup)
    (hamo : countActive k i t s.alerts ≤ 1) :
    countActive k i t (deactivateExistingOne k i t s).alerts = 0 := by
  unfold deactivateExistingOne
  cases hf : s.alerts.find? (matchActive k i t) with
  | none => exact filter_length_zero_of_find?_none _ _ hf
  | some a =>
      have h1 := filter_deactivateFirstById_found (matchActive k i t) a
        (matchActive_setInactive k i t) s.alerts hids hf
      have hge := count_ne_zero_of_find?_some _ _ a hf
      simp only [countActive, updateOneInactive] at *
      omega

lemma id_injOn_of_nodup (l : List Alert) (h : (l.map Alert.id).Nodup)
    (a b : Alert) (ha : a ∈ l) (hb : b ∈ l) (hab : a.id = b.id) : a = b :=
  List.inj_on_of_nodup_map h ha hb hab

lemma matchActive_key_eq (k : OwnerKind) (i : Nat) (t : AlertType)
    (k' : OwnerKind) (i' : Nat) (t' : AlertType) (a : Alert)
    (h : matchActive k i t a = true) (h' : matchActive k' i' t' a = true) :
    k = k' ∧ i = i' ∧ t = t' := by
  rw [matchActive_iff] at h h'
  exact ⟨h.1.symm.trans h'.1, h.2.1.symm.trans h'.2.1,
    h.2.2.1.symm.trans h'.2.2.1⟩

lemma matchActive_owner_eq (k0 : OwnerKind) (i0 : Nat) (t0 : AlertType)
    (k : OwnerKind) (i : Nat) (a : Alert)
    (h : matchActive k0 i0 t0 a = true) (h' : matchActiveOwner k i a = true) :
    k = k0 ∧ i = i0 := by
  rw [matchActive_iff] at h
  rw [matchActiveOwner_iff] at h'
  exact ⟨h'.1.symm.trans h.1, h'.2.1.symm.trans h.2.1⟩

lemma matchActiveOwner_mkAlert_iff (k : OwnerKind) (i : Nat)
    (k0 : OwnerKind) (e : CEntity) (t : AlertType) (sev : String) (d : Int)
    (id : Nat) :
    matchActiveOwner k i (mkAlert k0 e t sev d id) = true
      ↔ (k0 = k ∧ e.id = i) := by
  simp [matchActiveOwner, mkAlert, and_assoc]

lemma countActive_deactivateExistingOne_frame (k0 : OwnerKind) (i0 : Nat)
    (t0 : AlertType) (k : OwnerKind) (i : Nat) (t : AlertType) (s : AlertsDB)
    (hids : (s.alerts.map Alert.id).Nodup)
    (hne : ¬(k = k0 ∧ i = i0 ∧ t = t0)) :
    countActive k i t (deactivateExistingOne k0 i0 t0 s).alerts
      = countActive k i t s.alerts := by
  unfold deactivateExistingOne
  cases hf : s.alerts.find? (matchActive k0 i0 t0) with
  | none => rfl
  | some a =>
      have hmem := List.mem_of_find?_eq_some hf
      have hpa := List.find?_some hf
      have hdisj : ∀ b ∈ s.alerts, b.id = a.id → matchActive k i t b = false := by
        intro b hb hbid
        have hba : b = a := id_injOn_of_nodup _ hids b a hb hmem hbid
        subst hba
        by_contra hc
        simp only [Bool.not_eq_false] at hc
        exact hne (matchActive_key_eq k i t k0 i0 t0 b hc hpa)
      simp only [countActive, updateOneInactive]
      rw [filter_deactivateFirstById_disjoint _ _
        (matchActive_setInactive k i t) _ hdisj]

lemma countActive_updateManyInactive_frame (k : OwnerKind) (i : Nat)
    (t : AlertType) (q : Alert → Bool) (s : AlertsDB)
    (hdisj : ∀ a, q a = true → matchActive k i t a = false) :
    countActive k i t (updateManyInactive q s).alerts
      = countActive k i t s.alerts := by
  simp only [countActive, updateManyInactive]
  rw [filter_deactivateMany_disjoint _ q (matchActive_setInactive k i t)
    hdisj]

lemma countActive_insertAlert_frame (k : OwnerKind) (i : Nat) (t : AlertType)
    (mk : Nat → Alert) (s : AlertsDB)
    (hm : matchActive k i t (mk s.nextId) = false) :
    countActive k i t (insertAlert mk s).alerts
      = countActive k i t s.alerts := by
  simp only [countActive, insertAlert]
  rw [filter_append_singleton]
  simp [hm]

lemma countActive_expiredTail_frame (k0 : OwnerKind) (e : CEntity)
    (tX0 : AlertType) (d : Int) (s1 : AlertsDB) (k : OwnerKind) (i : Nat)
    (t : AlertType) (h2 : ¬(k = k0 ∧ i = e.id ∧ t = tX0)) :
    countActive k i t (expiredTail k0 e tX0 d s1).alerts
      = countActive k i t s1.alerts := by
  unfold expiredTail
  cases s1.alerts.find? (matchActive k0 e.id tX0) with
  | some a => rfl
  | none =>
      apply countActive_insertAlert_frame
      by_contra hc
      simp only [Bool.not_eq_false] at hc
      obtain ⟨hk, hi, ht⟩ :=
        (matchActive_mkAlert_iff k i t k0 e tX0 "danger" d s1.nextId).mp hc
      exact h2 ⟨hk.symm, hi.symm, ht.symm⟩

lemma countActive_processExpiryEntity_frame (k0 : OwnerKind)
    (tE0 tX0 : AlertType) (now : Int) (s : AlertsDB) (e : CEntity)
    (k : OwnerKind) (i : Nat) (t : AlertType)
    (hids : (s.alerts.map Alert.id).Nodup)
    (h1 : ¬(k = k0 ∧ i = e.id ∧ t = tE0))
    (h2 : ¬(k = k0 ∧ i = e.id ∧ t = tX0)) :
    countActive k i t (processExpiryEntity k0 tE0 tX0 now s e).alerts
      = countActive k i t s.alerts := by
  have hqdisj : ∀ a, matchActive k0 e.id tX0 a = true →
      matchActive k i t a = false := by
    intro a ha
    by_contra hc
    simp only [Bool.not_eq_false] at hc
    exact h2 (matchActive_key_eq k i t k0 e.id tX0 a hc ha)
  unfold processExpiryEntity
  cases e.expiry with
  | none =>
      exact countActive_deactivateExistingOne_frame k0 e.id tE0 k i t s hids h1
  | some d =>
      by_cases hlt : d < now
      · simp only [hlt, if_true]
        rw [countActive_expiredTail_frame k0 e tX0 d _ k i t h2]
        exact countActive_deactivateExistingOne_frame k0 e.id tE0 k i t s
          hids h1
      · by_cases hle : d ≤ now + thirty_days
        · simp only [hlt, hle, if_true, if_false]
          cases s.alerts.find? (matchActive k0 e.id tE0) with
          | some a =>
              exact countActive_updateManyInactive_frame k i t _ s hqdisj
          | none =>
              rw [countActive_insertAlert_frame]
              · exact countActive_updateManyInactive_frame k i t _ s hqdisj
              · by_contra hc
                simp only [Bool.not_eq_false] at hc
                obtain ⟨hk, hi, ht⟩ := (matchActive_mkAlert_iff k i t k0 e tE0
                  "warning" d _).mp hc
                exact h1 ⟨hk.symm, hi.symm, ht.symm⟩
        · simp only [hlt, hle, if_false]
          rw [countActive_updateManyInactive_frame k i t _ _ hqdisj]
          exact countActive_deactivateExistingOne_frame k0 e.id tE0 k i t s
            hids h1

lemma countActiveOwner_deactivateExistingOne_frame (k0 : OwnerKind) (i0 : Nat)
    (t0 : AlertType) (k : OwnerKind) (i : Nat) (s : AlertsDB)
    (hids : (s.alerts.map Alert.id).Nodup) (hne : ¬(k = k0 ∧ i = i0)) :
    countActiveOwner k i (deactivateExistingOne k0 i0 t0 s).alerts
      = countActiveOwner k i s.alerts := by
  unfold deactivateExistingOne
  cases hf : s.alerts.find? (matchActive k0 i0 t0) with
  | none => rfl
  | some a =>
      have hmem := List.mem_of_find?_eq_some hf
      have hpa := List.find?_some hf
      have hdisj : ∀ b ∈ s.alerts, b.id = a.id →
          matchActiveOwner k i b = false := by
        intro b hb hbid
        have hba : b = a := id_injOn_of_nodup _ hids b a hb hmem hbid
        subst hba
        by_contra hc
        simp only [Bool.not_eq_false] at hc
        exact hne (matchActive_owner_eq k0 i0 t0 k i b hpa hc)
      simp only [countActiveOwner, updateOneInactive]
      rw [filter_deactivateFirstById_disjoint _ _
        (matchActiveOwner_setInactive k i) _ hdisj]

lemma countActiveOwner_updateManyInactive_frame (k : OwnerKind) (i : Nat)
    (q : Alert → Bool) (s : AlertsDB)
    (hdisj : ∀ a, q a = true → matchActiveOwner k i a = false) :
    countActiveOwner k i (updateManyInactive q s).alerts
      = countActiveOwner k i s.alerts := by
  simp only [countActiveOwner, updateManyInactive]
  rw [filter_deactivateMany_disjoint _ q (matchActiveOwner_setInactive k i)
    hdisj]

lemma countActiveOwner_insertAlert_frame (k : OwnerKind) (i : Nat)
    (mk : Nat → Alert) (s : AlertsDB)
    (hm : matchActiveOwner k i (mk s.nextId) = false) :
    countActiveOwner k i (insertAlert mk s).alerts
      = countActiveOwner k i s.alerts := by
  simp only [countActiveOwner, insertAlert]
  rw [filter_append_singleton]
  simp [hm]

lemma countActiveOwner_expiredTail_frame (k0 : OwnerKind) (e : CEntity)
    (tX0 : AlertType) (d : Int) (s1 : AlertsDB) (k : OwnerKind) (i : Nat)
    (hne : ¬(k = k0 ∧ i = e.id)) :
    countActiveOwner k i (expiredTail k0 e tX0 d s1).alerts
      = countActiveOwner k i s1.alerts := by
  unfold expiredTail
  cases s1.alerts.find? (matchActive k0 e.id tX0) with
  | some a => rfl
  | none =>
      apply countActiveOwner_insertAlert_frame
      by_contra hc
      simp only [Bool.not_eq_false] at hc
      obtain ⟨hk, hi⟩ :=
        (matchActiveOwner_mkAlert_iff k i k0 e tX0 "danger" d s1.nextId).mp hc
      exact hne ⟨hk.symm, hi.symm⟩

lemma countActiveOwner_processExpiryEntity_frame (k0 : OwnerKind)
    (tE0 tX0 : AlertType) (now : Int) (s : AlertsDB) (e : CEntity)
    (k : OwnerKind) (i : Nat)
    (hids : (s.alerts.map Alert.id).Nodup) (hne : ¬(k = k0 ∧ i = e.id)) :
    countActiveOwner k i (processExpiryEntity k0 tE0 tX0 now s e).alerts
      = countActiveOwner k i s.alerts := by
  have hqdisj : ∀ a, matchActive k0 e.id tX0 a = true →
      matchActiveOwner k i a = false := by
    intro a ha
    by_contra hc
    simp only [Bool.not_eq_false] at hc
    exact hne (matchActive_owner_eq k0 e.id tX0 k i a ha hc)
  unfold processExpiryEntity
  cases e.expiry with
  | none =>
      exact countActiveOwner_deactivateExistingOne_frame k0 e.id tE0 k i s
        hids hne
  | some d =>
      by_cases hlt : d < now
      · simp only [hlt, if_true]
        rw [countActiveOwner_expiredTail_frame k0 e tX0 d _ k i hne]
        exact countActiveOwner_deactivateExistingOne_frame k0 e.id tE0 k i s
          hids hne
      · by_cases hle : d ≤ now + thirty_days
        · simp only [hlt, hle, if_true, if_false]
          cases s.alerts.find? (matchActive k0 e.id tE0) with
          | some a =>
              exact countActiveOwner_updateManyInactive_frame k i _ s hqdisj
          | none =>
              rw [countActiveOwner_insertAlert_frame]
              · exact countActiveOwner_updateManyInactive_frame k i _ s hqdisj
              · by_contra hc
                simp only [Bool.not_eq_false] at hc
                obtain ⟨hk, hi⟩ := (matchActiveOwner_mkAlert_iff k i k0 e tE0
                  "warning" d _).mp hc
                exact hne ⟨hk.symm, hi.symm⟩
        · simp only [hlt, hle, if_false]
          rw [countActiveOwner_updateManyInactive_frame k i _ _ hqdisj]
          exact countActiveOwner_deactivateExistingOne_frame k0 e.id tE0 k i s
            hids hne

lemma countActive_updateManyInactive_self (k : OwnerKind) (i : Nat)
    (t : AlertType) (s : AlertsDB) :
    countActive k i t (updateManyInactive (matchActive k i t) s).alerts
      = 0 := by
  simp only [countActive, updateManyInactive]
  rw [filter_deactivateMany_self _ (matchActive_setInactive k i t)]
  rfl

/-- Processing an entity establishes its stable condition. -/
lemma processExpiryEntity_establishes (k : OwnerKind) (tE tX : AlertType)
    (now : Int) (s : AlertsDB) (e : CEntity) (htype : tE ≠ tX)
    (hwf : WfAlertsDB s) (hamo : AtMostOneActive s.alerts) :
    EntityStable k tE tX now e.id e.expiry
      (processExpiryEntity k tE tX now s e).alerts := by
  have hids := hwf.1
  have hdisjXE : ∀ a, matchActive k e.id tX a = true →
      matchActive k e.id tE a = false := by
    intro a ha
    by_contra hc
    simp only [Bool.not_eq_false] at hc
    exact htype ((matchActive_key_eq k e.id tE k e.id tX a hc ha).2.2)
  unfold processExpiryEntity EntityStable
  cases hx : e.expiry with
  | none =>
      simp only [classifyExpiry]
      exact countActive_deactivateExistingOne_self k e.id tE s hids
        (hamo k e.id tE)
  | some d =>
      by_cases hlt : d < now
      · simp only [classifyExpiry, hlt, if_true]
        have hE1 : countActive k e.id tE
            (deactivateExistingOne k e.id tE s).alerts = 0 :=
          countActive_deactivateExistingOne_self k e.id tE s hids
            (hamo k e.id tE)
        constructor
        · rw [countActive_expiredTail_frame k e tX d _ k e.id tE
            (fun hc => htype hc.2.2)]
          exact hE1
        · unfold expiredTail
          cases hf : (deactivateExistingOne k e.id tE s).alerts.find?
              (matchActive k e.id tX) with
          | some a => exact count_ne_zero_of_find?_some _ _ a hf
          | none =>
              simp only [countActive, insertAlert]
              rw [filter_append_singleton]
              have hm : matchActive k e.id tX
                  (mkAlert k e tX "danger" d
                    (deactivateExistingOne k e.id tE s).nextId) = true :=
                (matchActive_mkAlert_iff k e.id tX k e tX "danger" d _).mpr
                  ⟨rfl, rfl, rfl⟩
              simp [hm]
      · by_cases hle : d ≤ now + thirty_days
        · simp only [classifyExpiry, hlt, hle, if_true, if_false]
          have hX0 := countActive_updateManyInactive_self k e.id tX s
          cases hf : s.alerts.find? (matchActive k e.id tE) with
          | some a =>
              constructor
              · rw [countActive_updateManyInactive_frame k e.id tE _ s hdisjXE]
                exact count_ne_zero_of_find?_some _ _ a hf
              · exact hX0
          | none =>
              constructor
              · simp only [countActive, insertAlert]
                rw [filter_append_singleton]
                have hm : matchActive k e.id tE
                    (mkAlert k e tE "warning" d
                      (updateManyInactive (matchActive k e.id tX)
                        s).nextId) = true :=
                  (matchActive_mkAlert_iff k e.id tE k e tE "warning" d
                    _).mpr ⟨rfl, rfl, rfl⟩
                simp [hm]
              · rw [countActive_insertAlert_frame]
                · exact hX0
                · by_contra hc
                  simp only [Bool.not_eq_false] at hc
                  obtain ⟨_, _, ht⟩ := (matchActive_mkAlert_iff k e.id tX k e
                    tE "warning" d _).mp hc
                  exact htype ht
        · simp only [classifyExpiry, hlt, hle, if_false]
          constructor
          · rw [countActive_updateManyInactive_frame k e.id tE _ _ hdisjXE]
            exact countActive_deactivateExistingOne_self k e.id tE s hids
              (hamo k e.id tE)
          · exact countActive_updateManyInactive_self k e.id tX _

/-- `EntityStable` only depends on the two per-key counts. -/
lemma EntityStable_congr (k : OwnerKind) (tE tX : AlertType) (now : Int)
    (i : Nat) (x : Option Int) (l l' : List Alert)
    (hE : countActive k i tE l' = countActive k i tE l)
    (hX : countActive k i tX l' = countActive k i tX l)
    (h : EntityStable k tE tX now i x l) : EntityStable k tE tX now i x l' := by
  unfold EntityStable at *
  cases hcl : classifyExpiry now x <;> rw [hcl] at h <;> simp_all

lemma matchActiveOwner_owner_eq (k0 : OwnerKind) (i0 : Nat) (k : OwnerKind)
    (i : Nat) (a : Alert) (h : matchActiveOwner k0 i0 a = true)
    (h' : matchActiveOwner k i a = true) : k = k0 ∧ i = i0 := by
  rw [matchActiveOwner_iff] at h h'
  exact ⟨h'.1.symm.trans h.1, h'.2.1.symm.trans h.2.1⟩

lemma WfAlertsDB_foldl_process (k0 : OwnerKind) (tE0 tX0 : AlertType)
    (now : Int) (es : List CEntity) (s : AlertsDB) (hwf : WfAlertsDB s) :
    WfAlertsDB (es.foldl (processExpiryEntity k0 tE0 tX0 now) s) := by
  induction es generalizing s with
  | nil => exact hwf
  | cons e rest ih =>
      exact ih _ (WfAlertsDB_processExpiryEntity k0 tE0 tX0 now s e hwf)

lemma AtMostOneActive_foldl_process (k0 : OwnerKind) (tE0 tX0 : AlertType)
    (now : Int) (es : List CEntity) (s : AlertsDB)
    (h : AtMostOneActive s.alerts) :
    AtMostOneActive (es.foldl (processExpiryEntity k0 tE0 tX0 now) s).alerts := by
  induction es generalizing s with
  | nil => exact h
  | cons e rest ih =>
      exact ih _ (AtMostOneActive_processExpiryEntity k0 tE0 tX0 now s e h)

lemma countActive_foldl_frame (k0 : OwnerKind) (tE0 tX0 : AlertType)
    (now : Int) (es : List CEntity) (s : AlertsDB) (k : OwnerKind) (i : Nat)
    (t : AlertType) (hwf : WfAlertsDB s)
    (hkeys : ∀ e ∈ es, ¬(k = k0 ∧ i = e.id ∧ t = tE0) ∧
      ¬(k = k0 ∧ i = e.id ∧ t = tX0)) :
    countActive k i t (es.foldl (processExpiryEntity k0 tE0 tX0 now) s).alerts
      = countActive k i t s.alerts := by
  induction es generalizing s with
  | nil => rfl
  | cons e rest ih =>
      simp only [List.foldl_cons]
      rw [ih _ (WfAlertsDB_processExpiryEntity k0 tE0 tX0 now s e hwf)
        (fun e' he' => hkeys e' (List.mem_cons_of_mem _ he'))]
      exact countActive_processExpiryEntity_frame k0 tE0 tX0 now s e k i t
        hwf.1 (hkeys e (List.mem_cons_self e rest)).1
        (hkeys e (List.mem_cons_self e rest)).2

lemma countActiveOwner_foldl_frame (k0 : OwnerKind) (tE0 tX0 : AlertType)
    (now : Int) (es : List CEntity) (s : AlertsDB) (k : OwnerKind) (i : Nat)
    (hwf : WfAlertsDB s) (hne : ∀ e ∈ es, ¬(k = k0 ∧ i = e.id)) :
    countActiveOwner k i
        (es.foldl (processExpiryEntity k0 tE0 tX0 now) s).alerts
      = countActiveOwner k i s.alerts := by
  induction es generalizing s with
  | nil => rfl
  | cons e rest ih =>
      simp only [List.foldl_cons]
      rw [ih _ (WfAlertsDB_processExpiryEntity k0 tE0 tX0 now s e hwf)
        (fun e' he' => hne e' (List.mem_cons_of_mem _ he'))]
      exact countActiveOwner_processExpiryEntity_frame k0 tE0 tX0 now s e k i
        hwf.1 (hne e (List.mem_cons_self e rest))

lemma foldl_process_establishes (k0 : OwnerKind) (tE0 tX0 : AlertType)
    (now : Int) (es : List CEntity) (s : AlertsDB) (htype : tE0 ≠ tX0)
    (hwf : WfAlertsDB s) (hamo : AtMostOneActive s.alerts)
    (hnd : (es.map CEntity.id).Nodup) :
    ∀ e ∈ es, EntityStable k0 tE0 tX0 now e.id e.expiry
      (es.foldl (processExpiryEntity k0 tE0 tX0 now) s).alerts := by
  induction es generalizing s with
  | nil => intro e he; simp at he
  | cons e rest ih =>
      intro e' he'
      simp only [List.foldl_cons]
      have hwf1 := WfAlertsDB_processExpiryEntity k0 tE0 tX0 now s e hwf
      have hamo1 := AtMostOneActive_processExpiryEntity k0 tE0 tX0 now s e hamo
      have hndr : (rest.map CEntity.id).Nodup := (List.nodup_cons.mp hnd).2
      rcases List.mem_cons.mp he' with he' | he'
      · subst he'
        have hest := processExpiryEntity_establishes k0 tE0 tX0 now s e' htype
          hwf hamo
        have hid_notin : e'.id ∉ rest.map CEntity.id :=
          (List.nodup_cons.mp hnd).1
        have hidne : ∀ f ∈ rest, e'.id ≠ f.id := by
          intro f hf hc
          exact hid_notin (hc ▸ List.mem_map_of_mem _ hf)
        refine EntityStable_congr k0 tE0 tX0 now e'.id e'.expiry _ _ ?_ ?_ hest
        · exact countActive_foldl_frame k0 tE0 tX0 now rest _ k0 e'.id tE0
            hwf1 (fun f hf => ⟨fun hc => hidne f hf hc.2.1,
              fun hc => hidne f hf hc.2.1⟩)
        · exact countActive_foldl_frame k0 tE0 tX0 now rest _ k0 e'.id tX0
            hwf1 (fun f hf => ⟨fun hc => hidne f hf hc.2.1,
              fun hc => hidne f hf hc.2.1⟩)
      · exact ih _ hwf1 hamo1 hndr e' he'

lemma WfAlertsDB_checkAndCreate (k0 : OwnerKind) (tE0 tX0 : AlertType)
    (now : Int) (entities : List CEntity) (s : AlertsDB)
    (hwf : WfAlertsDB s) :
    WfAlertsDB (checkAndCreateExpiryAlerts k0 tE0 tX0 now entities s) :=
  WfAlertsDB_foldl_process k0 tE0 tX0 now _ s hwf

lemma nodup_ids_filter (entities : List CEntity) (p : CEntity → Bool)
    (hnd : (entities.map CEntity.id).Nodup) :
    ((entities.filter p).map CEntity.id).Nodup := by
  have hsub : List.Sublist ((entities.filter p).map CEntity.id)
      (entities.map CEntity.id) :=
    (List.filter_sublist entities).map CEntity.id
  exact hnd.sublist hsub

lemma checkAndCreate_establishes (k0 : OwnerKind) (tE0 tX0 : AlertType)
    (now : Int) (entities : List CEntity) (s : AlertsDB) (htype : tE0 ≠ tX0)
    (hwf : WfAlertsDB s) (hamo : AtMostOneActive s.alerts)
    (hnd : (entities.map CEntity.id).Nodup) :
    ∀ e ∈ entities, e.status = "Active" →
      EntityStable k0 tE0 tX0 now e.id e.expiry
        (checkAndCreateExpiryAlerts k0 tE0 tX0 now entities s).alerts := by
  intro e he hst
  unfold checkAndCreateExpiryAlerts
  have hmem : e ∈ entities.filter (fun f => f.status == "Active") :=
    List.mem_filter.mpr ⟨he, by simp [hst]⟩
  exact foldl_process_establishes k0 tE0 tX0 now _ s htype hwf hamo
    (nodup_ids_filter entities _ hnd) e hmem

lemma countActive_checkAndCreate_frame (k0 : OwnerKind) (tE0 tX0 : AlertType)
    (now : Int) (entities : List CEntity) (s : AlertsDB) (k : OwnerKind)
    (i : Nat) (t : AlertType) (hwf : WfAlertsDB s)
    (hkeys : ∀ e ∈ entities, e.status = "Active" →
      ¬(k = k0 ∧ i = e.id ∧ t = tE0) ∧ ¬(k = k0 ∧ i = e.id ∧ t = tX0)) :
    countActive k i t (checkAndCreateExpiryAlerts k0 tE0 tX0 now entities
        s).alerts = countActive k i t s.alerts := by
  unfold checkAndCreateExpiryAlerts
  apply countActive_foldl_frame k0 tE0 tX0 now _ s k i t hwf
  intro e he
  obtain ⟨hm, hs⟩ := List.mem_filter.mp he
  exact hkeys e hm (by simpa using hs)

lemma countActiveOwner_checkAndCreate_frame (k0 : OwnerKind)
    (tE0 tX0 : AlertType) (now : Int) (entities : List CEntity) (s : AlertsDB)
    (k : OwnerKind) (i : Nat) (hwf : WfAlertsDB s)
    (hne : ∀ e ∈ entities, e.status = "Active" → ¬(k = k0 ∧ i = e.id)) :
    countActiveOwner k i (checkAndCreateExpiryAlerts k0 tE0 tX0 now entities
        s).alerts = countActiveOwner k i s.alerts := by
  unfold checkAndCreateExpiryAlerts
  apply countActiveOwner_foldl_frame k0 tE0 tX0 now _ s k i hwf
  intro e he
  obtain ⟨hm, hs⟩ := List.mem_filter.mp he
  exact hne e hm (by simpa using hs)

lemma countActiveOwner_updateManyInactive_self (k : OwnerKind) (i : Nat)
    (s : AlertsDB) :
    countActiveOwner k i
      (updateManyInactive (matchActiveOwner k i) s).alerts = 0 := by
  simp only [countActiveOwner, updateManyInactive]
  rw [filter_deactivateMany_self _ (matchActiveOwner_setInactive k i)]
  rfl

lemma countActiveOwner_updateManyInactive_le (k : OwnerKind) (i : Nat)
    (q : Alert → Bool) (s : AlertsDB) :
    countActiveOwner k i (updateManyInactive q s).alerts
      ≤ countActiveOwner k i s.alerts :=
  filter_deactivateMany_le _ q (matchActiveOwner_setInactive k i) s.alerts

lemma removeInactive_foldl_le (k0 : OwnerKind) (fs : List CEntity)
    (s : AlertsDB) (k : OwnerKind) (i : Nat) :
    countActiveOwner k i
        (fs.foldl (fun s f =>
          updateManyInactive (matchActiveOwner k0 f.id) s) s).alerts
      ≤ countActiveOwner k i s.alerts := by
  induction fs generalizing s with
  | nil => exact le_refl _
  | cons f rest ih =>
      simp only [List.foldl_cons]
      exact le_trans (ih _) (countActiveOwner_updateManyInactive_le k i _ s)

lemma removeInactive_foldl_zero (k0 : OwnerKind) (fs : List CEntity)
    (s : AlertsDB) (e : CEntity) (he : e ∈ fs) :
    countActiveOwner k0 e.id
      (fs.foldl (fun s f =>
        updateManyInactive (matchActiveOwner k0 f.id) s) s).alerts = 0 := by
  induction fs generalizing s with
  | nil => simp at he
  | cons f rest ih =>
      simp only [List.foldl_cons]
      rcases List.mem_cons.mp he with he | he
      · subst he
        have h0 := countActiveOwner_updateManyInactive_self k0 e.id s
        have hle := removeInactive_foldl_le k0 rest
          (updateManyInactive (matchActiveOwner k0 e.id) s) k0 e.id
        omega
      · exact ih _ he

lemma removeInactive_establishes (k0 : OwnerKind) (es : List CEntity)
    (s : AlertsDB) :
    ∀ e ∈ es, e.status = "Inactive" →
      countActiveOwner k0 e.id (removeInactiveAlerts k0 es s).alerts = 0 := by
  intro e he hst
  unfold removeInactiveAlerts
  exact removeInactive_foldl_zero k0 _ s e
    (List.mem_filter.mpr ⟨he, by simp [hst]⟩)

lemma WfAlertsDB_removeInactive (k0 : OwnerKind) (es : List CEntity)
    (s : AlertsDB) (hwf : WfAlertsDB s) :
    WfAlertsDB (removeInactiveAlerts k0 es s) := by
  unfold removeInactiveAlerts
  generalize (es.filter fun e => e.status == "Inactive") = fs
  induction fs generalizing s with
  | nil => exact hwf
  | cons f rest ih =>
      exact ih _ (WfAlertsDB_updateManyInactive _ s hwf)

lemma countActiveOwner_removeInactive_frame (k0 : OwnerKind)
    (es : List CEntity) (s : AlertsDB) (k : OwnerKind) (i : Nat)
    (hne : ∀ e ∈ es, e.status = "Inactive" → ¬(k = k0 ∧ i = e.id)) :
    countActiveOwner k i (removeInactiveAlerts k0 es s).alerts
      = countActiveOwner k i s.alerts := by
  unfold removeInactiveAlerts
  have hne' : ∀ f ∈ es.filter (fun e => e.status == "Inactive"),
      ¬(k = k0 ∧ i = f.id) := by
    intro f hf
    obtain ⟨hm, hs⟩ := List.mem_filter.mp hf
    exact hne f hm (by simpa using hs)
  generalize hfs : (es.filter fun e => e.status == "Inactive") = fs at hne'
  clear hfs
  induction fs generalizing s with
  | nil => rfl
  | cons f rest ih =>
      simp only [List.foldl_cons]
      rw [ih _ (fun g hg => hne' g (List.mem_cons_of_mem _ hg))]
      apply countActiveOwner_updateManyInactive_frame
      intro a ha
      by_contra hc
      simp only [Bool.not_eq_false] at hc
      exact hne' f (List.mem_cons_self f rest)
        (matchActiveOwner_owner_eq k0 f.id k i a ha hc)

lemma countActive_removeInactive_frame (k0 : OwnerKind) (es : List CEntity)
    (s : AlertsDB) (k : OwnerKind) (i : Nat) (t : AlertType)
    (hne : ∀ e ∈ es, e.status = "Inactive" → ¬(k = k0 ∧ i = e.id)) :
    countActive k i t (removeInactiveAlerts k0 es s).alerts
      = countActive k i t s.alerts := by
  unfold removeInactiveAlerts
  have hne' : ∀ f ∈ es.filter (fun e => e.status == "Inactive"),
      ¬(k = k0 ∧ i = f.id) := by
    intro f hf
    obtain ⟨hm, hs⟩ := List.mem_filter.mp hf
    exact hne f hm (by simpa using hs)
  generalize hfs : (es.filter fun e => e.status == "Inactive") = fs at hne'
  clear hfs
  induction fs generalizing s with
  | nil => rfl
  | cons f rest ih =>
      simp only [List.foldl_cons]
      rw [ih _ (fun g hg => hne' g (List.mem_cons_of_mem _ hg))]
      apply countActive_updateManyInactive_frame
      intro a ha
      by_contra hc
      simp only [Bool.not_eq_false] at hc
      have := matchActive_owner_eq k i t k0 f.id a hc ha
      exact hne' f (List.mem_cons_self f rest) ⟨this.1.symm, this.2.symm⟩

lemma removeInactiveAlerts_eq_self (k0 : OwnerKind) (es : List CEntity)
    (s : AlertsDB)
    (h : ∀ e ∈ es, e.status = "Inactive" →
      countActiveOwner k0 e.id s.alerts = 0) :
    removeInactiveAlerts k0 es s = s := by
  unfold removeInactiveAlerts
  have h' : ∀ f ∈ es.filter (fun e => e.status == "Inactive"),
      countActiveOwner k0 f.id s.alerts = 0 := by
    intro f hf
    obtain ⟨hm, hs⟩ := List.mem_filter.mp hf
    exact h f hm (by simpa using hs)
  generalize hfs : (es.filter fun e => e.status == "Inactive") = fs at h'
  clear hfs
  induction fs with
  | nil => rfl
  | cons f rest ih =>
      simp only [List.foldl_cons]
      rw [updateManyInactive_eq_self _ _ (h' f (List.mem_cons_self f rest))]
      exact ih (fun g hg => h' g (List.mem_cons_of_mem _ hg))

lemma checkAndCreate_eq_self (k0 : OwnerKind) (tE0 tX0 : AlertType)
    (now : Int) (entities : List CEntity) (s : AlertsDB)
    (h : ∀ e ∈ entities, e.status = "Active" →
      EntityStable k0 tE0 tX0 now e.id e.expiry s.alerts) :
    checkAndCreateExpiryAlerts k0 tE0 tX0 now entities s = s := by
  unfold checkAndCreateExpiryAlerts
  have h' : ∀ f ∈ entities.filter (fun e => e.status == "Active"),
      EntityStable k0 tE0 tX0 now f.id f.expiry s.alerts := by
    intro f hf
    obtain ⟨hm, hs⟩ := List.mem_filter.mp hf
    exact h f hm (by simpa using hs)
  generalize hfs : (entities.filter fun e => e.status == "Active") = fs at h'
  clear hfs
  induction fs with
  | nil => rfl
  | cons f rest ih =>
      simp only [List.foldl_cons]
      rw [processExpiryEntity_eq_self k0 tE0 tX0 now s f
        (h' f (List.mem_cons_self f rest))]
      exact ih (fun g hg => h' g (List.mem_cons_of_mem _ hg))

lemma toC_ids_emp (emps : List Employee) :
    ((emps.map Employee.toC).map CEntity.id) = emps.map Employee.id := by
  rw [List.map_map]
  rfl

lemma toC_ids_truck_ins (trucks : List Truck) :
    ((trucks.map Truck.toInsuranceC).map CEntity.id)
      = trucks.map Truck.id := by
  rw [List.map_map]
  rfl

lemma toC_ids_truck_fc (trucks : List Truck) :
    ((trucks.map Truck.toFcC).map CEntity.id) = trucks.map Truck.id := by
  rw [List.map_map]
  rfl

lemma toC_ids_truck_permit (trucks : List Truck) :
    ((trucks.map Truck.toPermitC).map CEntity.id) = trucks.map Truck.id := by
  rw [List.map_map]
  rfl

/-- One full reconciliation run establishes every entity's stable state. -/
lemma get_alerts_reconcile_establishes (now : Int) (emps : List Employee)
    (trucks : List Truck) (s : AlertsDB) (hwf : WfAlertsDB s)
    (hamo : AtMostOneActive s.alerts)
    (hnde : (emps.map Employee.id).Nodup)
    (hndt : (trucks.map Truck.id).Nodup) :
    AllStable now emps trucks (get_alerts_reconcile now emps trucks s).alerts := by
  have hreconcile : get_alerts_reconcile now emps trucks s =
      checkAndCreateExpiryAlerts OwnerKind.truck AlertType.permit_expiry
        AlertType.permit_expired now (trucks.map Truck.toPermitC)
        (checkAndCreateExpiryAlerts OwnerKind.truck AlertType.fc_expiry
          AlertType.fc_expired now (trucks.map Truck.toFcC)
          (checkAndCreateExpiryAlerts OwnerKind.truck
            AlertType.insurance_expiry AlertType.insurance_expired now
            (trucks.map Truck.toInsuranceC)
            (checkAndCreateExpiryAlerts OwnerKind.employee
              AlertType.license_expiry AlertType.license_expired now
              (emps.map Employee.toC)
              (removeInactiveAlerts OwnerKind.truck
                (trucks.map Truck.toInsuranceC)
                (removeInactiveAlerts OwnerKind.employee
                  (emps.map Employee.toC) s))))) := rfl
  set eC := emps.map Employee.toC with heC
  set tCi := trucks.map Truck.toInsuranceC with htCi
  set tCf := trucks.map Truck.toFcC with htCf
  set tCp := trucks.map Truck.toPermitC with htCp
  set s1 := removeInactiveAlerts OwnerKind.employee eC s with hs1
  set s2 := removeInactiveAlerts OwnerKind.truck tCi s1 with hs2
  set s3 := checkAndCreateExpiryAlerts OwnerKind.employee
    AlertType.license_expiry AlertType.license_expired now eC s2 with hs3
  set s4 := checkAndCreateExpiryAlerts OwnerKind.truck
    AlertType.insurance_expiry AlertType.insurance_expired now tCi s3 with hs4
  set s5 := checkAndCreateExpiryAlerts OwnerKind.truck AlertType.fc_expiry
    AlertType.fc_expired now tCf s4 with hs5
  set s6 := checkAndCreateExpiryAlerts OwnerKind.truck AlertType.permit_expiry
    AlertType.permit_expired now tCp s5 with hs6
  have hndeC : (eC.map CEntity.id).Nodup := by
    rw [heC, toC_ids_emp]; exact hnde
  have hndtCi : (tCi.map CEntity.id).Nodup := by
    rw [htCi, toC_ids_truck_ins]; exact hndt
  have hndtCf : (tCf.map CEntity.id).Nodup := by
    rw [htCf, toC_ids_truck_fc]; exact hndt
  have hndtCp : (tCp.map CEntity.id).Nodup := by
    rw [htCp, toC_ids_truck_permit]; exact hndt
  have hwf1 : WfAlertsDB s1 := WfAlertsDB_removeInactive _ eC s hwf
  have hwf2 : WfAlertsDB s2 := WfAlertsDB_removeInactive _ tCi s1 hwf1
  have hwf3 : WfAlertsDB s3 := WfAlertsDB_checkAndCreate _ _ _ now eC s2 hwf2
  have hwf4 : WfAlertsDB s4 := WfAlertsDB_checkAndCreate _ _ _ now tCi s3 hwf3
  have hwf5 : WfAlertsDB s5 := WfAlertsDB_checkAndCreate _ _ _ now tCf s4 hwf4
  have hamo1 : AtMostOneActive s1.alerts :=
    AtMostOneActive_removeInactive _ eC s hamo
  have hamo2 : AtMostOneActive s2.alerts :=
    AtMostOneActive_removeInactive _ tCi s1 hamo1
  have hamo3 : AtMostOneActive s3.alerts :=
    AtMostOneActive_checkAndCreate _ _ _ now eC s2 hamo2
  have hamo4 : AtMostOneActive s4.alerts :=
    AtMostOneActive_checkAndCreate _ _ _ now tCi s3 hamo3
  have hamo5 : AtMostOneActive s5.alerts :=
    AtMostOneActive_checkAndCreate _ _ _ now tCf s4 hamo4
  have hinjE : ∀ a ∈ emps, ∀ b ∈ emps, a.id = b.id → a = b :=
    fun a ha b hb hab => List.inj_on_of_nodup_map hnde ha hb hab
  have hinjT : ∀ a ∈ trucks, ∀ b ∈ trucks, a.id = b.id → a = b :=
    fun a ha b hb hab => List.inj_on_of_nodup_map hndt ha hb hab
  rw [hreconcile]
  refine ⟨?_, ?_, ?_, ?_⟩
  · -- inactive employees carry no Active alerts
    intro e he hst
    have h1 : countActiveOwner OwnerKind.employee e.id s1.alerts = 0 :=
      removeInactive_establishes OwnerKind.employee eC s (Employee.toC e)
        (List.mem_map_of_mem Employee.toC he) hst
    have h2 : countActiveOwner OwnerKind.employee e.id s2.alerts
        = countActiveOwner OwnerKind.employee e.id s1.alerts :=
      countActiveOwner_removeInactive_frame OwnerKind.truck tCi s1
        OwnerKind.employee e.id (fun f _ _ hc => by simp at hc)
    have h3 : countActiveOwner OwnerKind.employee e.id s3.alerts
        = countActiveOwner OwnerKind.employee e.id s2.alerts := by
      apply countActiveOwner_checkAndCreate_frame _ _ _ now eC s2 _ _ hwf2
      intro f hf hfa hc
      rw [heC] at hf
      obtain ⟨em, hm, rfl⟩ := List.mem_map.mp hf
      have hide : em = e := hinjE em hm e he hc.2.symm
      rw [hide] at hfa
      simp [Employee.toC, hst] at hfa
    have h4 : countActiveOwner OwnerKind.employee e.id s4.alerts
        = countActiveOwner OwnerKind.employee e.id s3.alerts :=
      countActiveOwner_checkAndCreate_frame _ _ _ now tCi s3 _ _ hwf3
        (fun f _ _ hc => by simp at hc)
    have h5 : countActiveOwner OwnerKind.employee e.id s5.alerts
        = countActiveOwner OwnerKind.employee e.id s4.alerts :=
      countActiveOwner_checkAndCreate_frame _ _ _ now tCf s4 _ _ hwf4
        (fun f _ _ hc => by simp at hc)
    have h6 : countActiveOwner OwnerKind.employee e.id s6.alerts
        = countActiveOwner OwnerKind.employee e.id s5.alerts :=
      countActiveOwner_checkAndCreate_frame _ _ _ now tCp s5 _ _ hwf5
        (fun f _ _ hc => by simp at hc)
    rw [h6, h5, h4, h3, h2]
    exact h1
  · -- active employees: license pass state survives the truck passes
    intro e he hst
    have hest : EntityStable OwnerKind.employee AlertType.license_expiry
        AlertType.license_expired now e.id e.license_expiry s3.alerts := by
      have := checkAndCreate_establishes OwnerKind.employee
        AlertType.license_expiry AlertType.license_expired now eC s2
        (by decide) hwf2 hamo2 hndeC (Employee.toC e)
        (List.mem_map_of_mem Employee.toC he) hst
      exact this
    have hE4 : countActive OwnerKind.employee e.id AlertType.license_expiry
        s4.alerts = countActive OwnerKind.employee e.id
        AlertType.license_expiry s3.alerts :=
      countActive_checkAndCreate_frame _ _ _ now tCi s3 _ _ _ hwf3
        (fun f _ _ => ⟨fun hc => by simp at hc, fun hc => by simp at hc⟩)
    have hX4 : countActive OwnerKind.employee e.id AlertType.license_expired
        s4.alerts = countActive OwnerKind.employee e.id
        AlertType.license_expired s3.alerts :=
      countActive_checkAndCreate_frame _ _ _ now tCi s3 _ _ _ hwf3
        (fun f _ _ => ⟨fun hc => by simp at hc, fun hc => by simp at hc⟩)
    have hE5 : countActive OwnerKind.employee e.id AlertType.license_expiry
        s5.alerts = countActive OwnerKind.employee e.id
        AlertType.license_expiry s4.alerts :=
      countActive_checkAndCreate_frame _ _ _ now tCf s4 _ _ _ hwf4
        (fun f _ _ => ⟨fun hc => by simp at hc, fun hc => by simp at hc⟩)
    have hX5 : countActive OwnerKind.employee e.id AlertType.license_expired
        s5.alerts = countActive OwnerKind.employee e.id
        AlertType.license_expired s4.alerts :=
      countActive_checkAndCreate_frame _ _ _ now tCf s4 _ _ _ hwf4
        (fun f _ _ => ⟨fun hc => by simp at hc, fun hc => by simp at hc⟩)
    have hE6 : countActive OwnerKind.employee e.id AlertType.license_expiry
        s6.alerts = countActive OwnerKind.employee e.id
        AlertType.license_expiry s5.alerts :=
      countActive_checkAndCreate_frame _ _ _ now tCp s5 _ _ _ hwf5
        (fun f _ _ => ⟨fun hc => by simp at hc, fun hc => by simp at hc⟩)
    have hX6 : countActive OwnerKind.employee e.id AlertType.license_expired
        s6.alerts = countActive OwnerKind.employee e.id
        AlertType.license_expired s5.alerts :=
      countActive_checkAndCreate_frame _ _ _ now tCp s5 _ _ _ hwf5
        (fun f _ _ => ⟨fun hc => by simp at hc, fun hc => by simp at hc⟩)
    exact EntityStable_congr _ _ _ _ _ _ _ _
      (hE6.trans (hE5.trans hE4)) (hX6.trans (hX5.trans hX4)) hest
  · -- inactive trucks carry no Active alerts
    intro t ht hst
    have h2 : countActiveOwner OwnerKind.truck t.id s2.alerts = 0 :=
      removeInactive_establishes OwnerKind.truck tCi s1 (Truck.toInsuranceC t)
        (List.mem_map_of_mem Truck.toInsuranceC ht) hst
    have h3 : countActiveOwner OwnerKind.truck t.id s3.alerts
        = countActiveOwner OwnerKind.truck t.id s2.alerts :=
      countActiveOwner_checkAndCreate_frame _ _ _ now eC s2 _ _ hwf2
        (fun f _ _ hc => by simp at hc)
    have hframe : ∀ (tC : List CEntity), tC = trucks.map Truck.toInsuranceC ∨
        tC = trucks.map Truck.toFcC ∨ tC = trucks.map Truck.toPermitC →
        ∀ f ∈ tC, f.status = "Active" →
          ¬(OwnerKind.truck = OwnerKind.truck ∧ t.id = f.id) := by
      intro tC htC f hf hfa hc
      have hidf : ∃ tk ∈ trucks, tk.id = f.id ∧ tk.status = f.status := by
        rcases htC with h | h | h <;> rw [h] at hf <;>
          obtain ⟨tk, hm, rfl⟩ := List.mem_map.mp hf <;>
          exact ⟨tk, hm, rfl, rfl⟩
      obtain ⟨tk, hm, hid, hstk⟩ := hidf
      have : tk = t := hinjT tk hm t ht (hid.trans hc.2.symm)
      rw [this] at hstk
      rw [hst] at hstk
      rw [← hstk] at hfa
      simp at hfa
    have h4 : countActiveOwner OwnerKind.truck t.id s4.alerts
        = countActiveOwner OwnerKind.truck t.id s3.alerts :=
      countActiveOwner_checkAndCreate_frame _ _ _ now tCi s3 _ _ hwf3
        (hframe tCi (by rw [htCi]; exact Or.inl rfl))
    have h5 : countActiveOwner OwnerKind.truck t.id s5.alerts
        = countActiveOwner OwnerKind.truck t.id s4.alerts :=
      countActiveOwner_checkAndCreate_frame _ _ _ now tCf s4 _ _ hwf4
        (hframe tCf (by rw [htCf]; exact Or.inr (Or.inl rfl)))
    have h6 : countActiveOwner OwnerKind.truck t.id s6.alerts
        = countActiveOwner OwnerKind.truck t.id s5.alerts :=
      countActiveOwner_checkAndCreate_frame _ _ _ now tCp s5 _ _ hwf5
        (hframe tCp (by rw [htCp]; exact Or.inr (Or.inr rfl)))
    rw [h6, h5, h4, h3]
    exact h2
  · -- active trucks: the three attribute passes
    intro t ht hst
    have htkeys : ∀ (tE0 tX0 t0 : AlertType), t0 ≠ tE0 → t0 ≠ tX0 →
        ∀ (es : List CEntity) (st : AlertsDB), WfAlertsDB st →
        countActive OwnerKind.truck t.id t0
            (checkAndCreateExpiryAlerts OwnerKind.truck tE0 tX0 now es
              st).alerts
          = countActive OwnerKind.truck t.id t0 st.alerts := by
      intro tE0 tX0 t0 hne1 hne2 es st hwfst
      exact countActive_checkAndCreate_frame _ _ _ now es st _ _ _ hwfst
        (fun f _ _ => ⟨fun hc => hne1 hc.2.2, fun hc => hne2 hc.2.2⟩)
    refine ⟨?_, ?_, ?_⟩
    · have hest : EntityStable OwnerKind.truck AlertType.insurance_expiry
          AlertType.insurance_expired now t.id t.insurance_expiry
          s4.alerts := by
        have := checkAndCreate_establishes OwnerKind.truck
          AlertType.insurance_expiry AlertType.insurance_expired now tCi s3
          (by decide) hwf3 hamo3 hndtCi (Truck.toInsuranceC t)
          (List.mem_map_of_mem Truck.toInsuranceC ht) hst
        exact this
      refine EntityStable_congr _ _ _ _ _ _ _ _ ?_ ?_ hest
      · exact (htkeys AlertType.permit_expiry AlertType.permit_expired
            AlertType.insurance_expiry (by decide) (by decide) tCp s5
            hwf5).trans
          (htkeys AlertType.fc_expiry AlertType.fc_expired
            AlertType.insurance_expiry (by decide) (by decide) tCf s4 hwf4)
      · exact (htkeys AlertType.permit_expiry AlertType.permit_expired
            AlertType.insurance_expired (by decide) (by decide) tCp s5
            hwf5).trans
          (htkeys AlertType.fc_expiry AlertType.fc_expired
            AlertType.insurance_expired (by decide) (by decide) tCf s4 hwf4)
    · have hest : EntityStable OwnerKind.truck AlertType.fc_expiry
          AlertType.fc_expired now t.id t.fc_expiry s5.alerts := by
        have := checkAndCreate_establishes OwnerKind.truck AlertType.fc_expiry
          AlertType.fc_expired now tCf s4 (by decide) hwf4 hamo4 hndtCf
          (Truck.toFcC t) (List.mem_map_of_mem Truck.toFcC ht) hst
        exact this
      refine EntityStable_congr _ _ _ _ _ _ _ _ ?_ ?_ hest
      · exact htkeys AlertType.permit_expiry AlertType.permit_expired
          AlertType.fc_expiry (by decide) (by decide) tCp s5 hwf5
      · exact htkeys AlertType.permit_expiry AlertType.permit_expired
          AlertType.fc_expired (by decide) (by decide) tCp s5 hwf5
    · have := checkAndCreate_establishes OwnerKind.truck
        AlertType.permit_expiry AlertType.permit_expired now tCp s5
        (by decide) hwf5 hamo5 hndtCp (Truck.toPermitC t)
        (List.mem_map_of_mem Truck.toPermitC ht) hst
      exact this

/-- A reconciliation run over an already-stable store is the identity:
no document is modified, nothing is inserted, the write counter stays put. -/
lemma get_alerts_reconcile_eq_self (now : Int) (emps : List Employee)
    (trucks : List Truck) (s : AlertsDB)
    (hst : AllStable now emps trucks s.alerts) :
    get_alerts_reconcile now emps trucks s = s := by
  obtain ⟨h1, h2, h3, h4⟩ := hst
  have hr1 : removeInactiveAlerts OwnerKind.employee (emps.map Employee.toC)
      s = s := by
    apply removeInactiveAlerts_eq_self
    intro f hf hfst
    obtain ⟨e, he, rfl⟩ := List.mem_map.mp hf
    exact h1 e he hfst
  have hr2 : removeInactiveAlerts OwnerKind.truck
      (trucks.map Truck.toInsuranceC) s = s := by
    apply removeInactiveAlerts_eq_self
    intro f hf hfst
    obtain ⟨t, ht, rfl⟩ := List.mem_map.mp hf
    exact h3 t ht hfst
  have hc1 : checkAndCreateExpiryAlerts OwnerKind.employee
      AlertType.license_expiry AlertType.license_expired now
      (emps.map Employee.toC) s = s := by
    apply checkAndCreate_eq_self
    intro f hf hfst
    obtain ⟨e, he, rfl⟩ := List.mem_map.mp hf
    exact h2 e he hfst
  have hc2 : checkAndCreateExpiryAlerts OwnerKind.truck
      AlertType.insurance_expiry AlertType.insurance_expired now
      (trucks.map Truck.toInsuranceC) s = s := by
    apply checkAndCreate_eq_self
    intro f hf hfst
    obtain ⟨t, ht, rfl⟩ := List.mem_map.mp hf
    exact (h4 t ht hfst).1
  have hc3 : checkAndCreateExpiryAlerts OwnerKind.truck AlertType.fc_expiry
      AlertType.fc_expired now (trucks.map Truck.toFcC) s = s := by
    apply checkAndCreate_eq_self
    intro f hf hfst
    obtain ⟨t, ht, rfl⟩ := List.mem_map.mp hf
    exact (h4 t ht hfst).2.1
  have hc4 : checkAndCreateExpiryAlerts OwnerKind.truck
      AlertType.permit_expiry AlertType.permit_expired now
      (trucks.map Truck.toPermitC) s = s := by
    apply checkAndCreate_eq_self
    intro f hf hfst
    obtain ⟨t, ht, rfl⟩ := List.mem_map.mp hf
    exact (h4 t ht hfst).2.2
  have hreconcile : get_alerts_reconcile now emps trucks s =
      checkAndCreateExpiryAlerts OwnerKind.truck AlertType.permit_expiry
        AlertType.permit_expired now (trucks.map Truck.toPermitC)
        (checkAndCreateExpiryAlerts OwnerKind.truck AlertType.fc_expiry
          AlertType.fc_expired now (trucks.map Truck.toFcC)
          (checkAndCreateExpiryAlerts OwnerKind.truck
            AlertType.insurance_expiry AlertType.insurance_expired now
            (trucks.map Truck.toInsuranceC)
            (checkAndCreateExpiryAlerts OwnerKind.employee
              AlertType.license_expiry AlertType.license_expired now
              (emps.map Employee.toC)
              (removeInactiveAlerts OwnerKind.truck
                (trucks.map Truck.toInsuranceC)
                (removeInactiveAlerts OwnerKind.employee
                  (emps.map Employee.toC) s))))) := rfl
  rw [hreconcile, hr1, hr2, hc1, hc2, hc3, hc4]

/-- C2: re-running the reconciliation pass with unchanged employees, trucks
and alerts is the identity on the store state: it performs zero effective
writes (the write counter does not move) and leaves the Active-alert set
identical. Hypotheses: `_id` uniqueness in each collection (a MongoDB
guarantee) and the at-most-one-active invariant in the starting state (the
collection starts empty and only this engine writes it). -/
theorem alert_reconciliation_idempotent (now : Int) (emps : List Employee)
    (trucks : List Truck) (s : AlertsDB) (hwf : WfAlertsDB s)
    (hamo : AtMostOneActive s.alerts)
    (hnde : (emps.map Employee.id).Nodup)
    (hndt : (trucks.map Truck.id).Nodup) :
    get_alerts_reconcile now emps trucks
        (get_alerts_reconcile now emps trucks s)
      = get_alerts_reconcile now emps trucks s ∧
    (get_alerts_reconcile now emps trucks
        (get_alerts_reconcile now emps trucks s)).writes
      = (get_alerts_reconcile now emps trucks s).writes ∧
    (get_alerts_reconcile now emps trucks
        (get_alerts_reconcile now emps trucks s)).alerts.filter
        (fun a => a.status == "Active")
      = (get_alerts_reconcile now emps trucks s).alerts.filter
        (fun a => a.status == "Active") := by
  have hid := get_alerts_reconcile_eq_self now emps trucks _
    (get_alerts_reconcile_establishes now emps trucks s hwf hamo hnde hndt)
  exact ⟨hid, by rw [hid], by rw [hid]⟩

/-- Witness for C2: a concrete second run over one active employee (license
expiring within 30 days) and one active truck (insurance already expired)
is the identity. -/
theorem alert_reconciliation_idempotent_witness :
    get_alerts_reconcile 0 [⟨1, "Active", "Driver", "E1", some 86400⟩]
        [⟨2, "Active", "T1", some (-86400), none, some 1000000000⟩]
        (get_alerts_reconcile 0 [⟨1, "Active", "Driver", "E1", some 86400⟩]
          [⟨2, "Active", "T1", some (-86400), none, some 1000000000⟩]
          ⟨[], 0, 0⟩)
      = get_alerts_reconcile 0 [⟨1, "Active", "Driver", "E1", some 86400⟩]
          [⟨2, "Active", "T1", some (-86400), none, some 1000000000⟩]
          ⟨[], 0, 0⟩ :=
  (alert_reconciliation_idempotent 0
    [⟨1, "Active", "Driver", "E1", some 86400⟩]
    [⟨2, "Active", "T1", some (-86400), none, some 1000000000⟩]
    ⟨[], 0, 0⟩ ⟨by simp, by simp⟩ (fun _ _ _ => by simp [countActive])
    (by decide) (by decide)).1

/-! ### Expiry classification boundaries -/

/-- Counterexample for C3: an expiry date exactly equal to `now` does NOT
classify as expired — the `if expiry_date < now` test is strict, so the
boundary point falls into the `elif expiry_date <= soon` branch. -/
theorem expiry_at_now_not_expired_counterexample :
    classifyExpiry 0 (some 0) ≠ ExpiryClass.expired ∧
    classifyExpiry 0 (some 0) = ExpiryClass.expiringSoon := by
  constructor
  · decide
  · decide

/-- C3 (amended): an expiry date exactly equal to `now` classifies as
expiring-soon, not expired (strict `<` for expired excludes the boundary),
and an expiry date exactly equal to `now + 30 days` classifies as
expiring-soon, not not-yet-due (inclusive `≤`). Behaviourally, an entity on
either boundary gets a `warning` "expiring soon" alert from a clean store. -/
theorem expiry_boundary_classification (now : Int) :
    classifyExpiry now (some now) = ExpiryClass.expiringSoon ∧
    classifyExpiry now (some (now + thirty_days)) = ExpiryClass.expiringSoon ∧
    classifyExpiry now (some now) ≠ ExpiryClass.expired ∧
    ∀ (k : OwnerKind) (tE tX : AlertType) (e : CEntity),
      e.expiry = some now →
      (processExpiryEntity k tE tX now ⟨[], 0, 0⟩ e).alerts
        = [mkAlert k e tE "warning" now 0] := by
  have h30 : (0 : Int) < thirty_days := by norm_num [thirty_days]
  have hA : classifyExpiry now (some now) = ExpiryClass.expiringSoon := by
    simp only [classifyExpiry]
    rw [if_neg (lt_irrefl now), if_pos (by omega)]
  refine ⟨hA, ?_, ?_, ?_⟩
  · simp only [classifyExpiry]
    rw [if_neg (by omega), if_pos (by omega)]
  · rw [hA]
    decide
  · intro k tE tX e hexp
    unfold processExpiryEntity
    simp only [hexp]
    rw [if_neg (lt_irrefl now), if_pos (show now ≤ now + thirty_days by omega)]
    simp [updateManyInactive, deactivateMany, insertAlert, List.find?]

/-- Witness for C3's amended theorem at `now = 0` with a concrete employee
whose license expires exactly at `now`. -/
theorem expiry_boundary_classification_witness :
    classifyExpiry 0 (some 0) = ExpiryClass.expiringSoon ∧
    (processExpiryEntity OwnerKind.employee AlertType.license_expiry
        AlertType.license_expired 0 ⟨[], 0, 0⟩
        ⟨1, "Active", "E1", some 0⟩).alerts
      = [mkAlert OwnerKind.employee ⟨1, "Active", "E1", some 0⟩
          AlertType.license_expiry "warning" 0 0] :=
  ⟨(expiry_boundary_classification 0).1,
   (expiry_boundary_classification 0).2.2.2 OwnerKind.employee
     AlertType.license_expiry AlertType.license_expired
     ⟨1, "Active", "E1", some 0⟩ rfl⟩

/-! ### Analytics aggregator (`get_analytics`, dashboard.py lines 410–528) -/

/-- `safe_float`: absent / empty / unparsable values become `0.0`. -/
def safe_float : Option ℚ → ℚ
  | none => 0
  | some v => v

/-- A `trips`-collection document, fields as written by the trips routes.
Numeric fields are `Option ℚ` (`none` = absent in a legacy document);
`start_date` is `Option Int` (`none` = absent or non-date). -/
structure Trip where
  id : Nat
  trip_number : String
  truck_id : Nat
  driver_id : Nat
  start_date : Option Int
  end_date : Option Int
  status : String
  region : Option String
  distance_km : Option ℚ
  mileage : Option ℚ
  revenue : Option ℚ
  fuel_consumed : Option ℚ
  fuel_cost : Option ℚ
  toll : Option ℚ
  rto : Option ℚ
  adblue : Option ℚ
  driver_salary : Option ℚ
  labour_charges : Option ℚ
  extra_expense : Option ℚ
  other_expenses : Option ℚ
  profit : Option ℚ
  notes : String
deriving DecidableEq, Repr

/-- The store query of `get_analytics` (line 420–426):
`start_date` between `start_date` and `end_date` (a non-date stored value
does not match the ranged query), plus optional exact truck/driver match. -/
def analyticsTripQuery (start_date end_date : Int)
    (truck_id driver_id : Option Nat) (trips : List Trip) : List Trip :=
  trips.filter fun t =>
    (match t.start_date with
     | some sd => decide (start_date ≤ sd) && decide (sd ≤ end_date)
     | none => false) &&
    (match truck_id with
     | some tid => t.truck_id == tid
     | none => true) &&
    (match driver_id with
     | some did => t.driver_id == did
     | none => true)

/-- Lines 436–441: keep only `status == "Completed"` trips, then post-filter
by region when a region parameter was supplied. -/
def completedTripsOf (now : Int) (days : Nat)
    (truck_id driver_id : Option Nat) (region : Option String)
    (trips : List Trip) : List Trip :=
  let end_date := now
  let start_date := now - (days : Int) * 86400
  let fetched := analyticsTripQuery start_date end_date truck_id driver_id
    trips
  let completed := fetched.filter fun t => t.status == "Completed"
  match region with
  | none => completed
  | some r => completed.filter fun t => t.region == some r

/-- The summary block of the analytics payload (lines 443–450). -/
structure AnalyticsSummary where
  total_trips : Nat
  total_distance : ℚ
  total_revenue : ℚ
  total_fuel_cost : ℚ
  total_fuel_consumed : ℚ
  total_other_expenses : ℚ
  total_profit : ℚ
  avg_fuel_efficiency : ℚ
deriving DecidableEq, Repr

def analyticsSummary (completed_trips : List Trip) : AnalyticsSummary :=
  let total_distance :=
    (completed_trips.map fun t => safe_float t.distance_km).sum
  let total_revenue := (completed_trips.map fun t => safe_float t.revenue).sum
  let total_fuel_cost :=
    (completed_trips.map fun t => safe_float t.fuel_cost).sum
  let total_fuel_consumed :=
    (completed_trips.map fun t => safe_float t.fuel_consumed).sum
  let total_other_expenses :=
    (completed_trips.map fun t => safe_float t.other_expenses).sum
  { total_trips := completed_trips.length,
    total_distance := total_distance,
    total_revenue := total_revenue,
    total_fuel_cost := total_fuel_cost,
    total_fuel_consumed := total_fuel_consumed,
    total_other_expenses := total_other_expenses,
    total_profit := total_revenue - total_fuel_cost - total_other_expenses,
    avg_fuel_efficiency :=
      if total_fuel_consumed > 0 then total_distance / total_fuel_consumed
      else 0 }

/-- One element of the `profit_trends` array (lines 462–467); `date` is the
start of the bucketed day. -/
structure TrendEntry where
  date : Int
  profit : ℚ
  revenue : ℚ
  expenses : ℚ
deriving DecidableEq, Repr

/-- One iteration of the `profit_trends` loop body: bucket the completed
trips by `day <= start_date < next_day` and sum the day's figures. -/
def profitTrendEntry (start_date : Int) (completed_trips : List Trip)
    (i : Nat) : TrendEntry :=
  let day := start_date + (i : Int) * 86400
  let next_day := day + 86400
  let day_trips := completed_trips.filter fun t =>
    match t.start_date with
    | some sd => decide (day ≤ sd) && decide (sd < next_day)
    | none => false
  let day_revenue := (day_trips.map fun t => safe_float t.revenue).sum
  let day_fuel_cost := (day_trips.map fun t => safe_float t.fuel_cost).sum
  let day_other_expenses :=
    (day_trips.map fun t => safe_float t.other_expenses).sum
  { date := day,
    profit := day_revenue - day_fuel_cost - day_other_expenses,
    revenue := day_revenue,
    expenses := day_fuel_cost + day_other_expenses }

/-- Lines 452–467: `for i in reversed(range(days))`. -/
def profit_trends (start_date : Int) (days : Nat)
    (completed_trips : List Trip) : List TrendEntry :=
  ((List.range days).reverse).map (profitTrendEntry start_date completed_trips)

/-- The `profit_trends` field of the `GET /dashboard/analytics` payload. -/
def get_analytics_profit_trends (now : Int) (days : Nat)
    (truck_id driver_id : Option Nat) (region : Option String)
    (trips : List Trip) : List TrendEntry :=
  profit_trends (now - (days : Int) * 86400) days
    (completedTripsOf now days truck_id driver_id region trips)

/-- The claim's per-day profit: revenue minus fuel cost minus other expenses
summed over completed trips whose `start_date` falls within the day
`[day, day + 86400)`. -/
def dayProfitSpec (trips : List Trip) (day : Int) : ℚ :=
  let dts := trips.filter fun t =>
    t.status == "Completed" &&
    (match t.start_date with
     | some sd => decide (day ≤ sd) && decide (sd < day + 86400)
     | none => false)
  (dts.map fun t => safe_float t.revenue).sum
    - (dts.map fun t => safe_float t.fuel_cost).sum
    - (dts.map fun t => safe_float t.other_expenses).sum

/-- C9: an analytics window with zero matching completed trips produces the
all-zero summary with `avg_fuel_efficiency = 0` (no division error), and in
general `avg_fuel_efficiency = total_distance / total_fuel_consumed` exactly
when `total_fuel_consumed > 0`, and `0` otherwise. -/
theorem analytics_zero_guard (now : Int) (days : Nat)
    (truck_id driver_id : Option Nat) (region : Option String)
    (trips : List Trip) :
    (completedTripsOf now days truck_id driver_id region trips = [] →
      analyticsSummary (completedTripsOf now days truck_id driver_id region
        trips) = ⟨0, 0, 0, 0, 0, 0, 0, 0⟩) ∧
    ((analyticsSummary (completedTripsOf now days truck_id driver_id region
        trips)).total_fuel_consumed > 0 →
      (analyticsSummary (completedTripsOf now days truck_id driver_id region
        trips)).avg_fuel_efficiency
        = (analyticsSummary (completedTripsOf now days truck_id driver_id
            region trips)).total_distance
          / (analyticsSummary (completedTripsOf now days truck_id driver_id
              region trips)).total_fuel_consumed) ∧
    (¬ (analyticsSummary (completedTripsOf now days truck_id driver_id region
        trips)).total_fuel_consumed > 0 →
      (analyticsSummary (completedTripsOf now days truck_id driver_id region
        trips)).avg_fuel_efficiency = 0) := by
  refine ⟨?_, ?_, ?_⟩
  · intro h
    rw [h]
    simp [analyticsSummary]
  · intro h
    simp only [analyticsSummary] at h ⊢
    rw [if_pos h]
  · intro h
    simp only [analyticsSummary] at h ⊢
    rw [if_neg h]

/-- Witness for C9: the empty store gives the all-zero summary and a zero
average fuel efficiency. -/
theorem analytics_zero_guard_witness :
    analyticsSummary (completedTripsOf 0 30 none none none [])
      = ⟨0, 0, 0, 0, 0, 0, 0, 0⟩ ∧
    (analyticsSummary (completedTripsOf 0 30 none none none
      [])).avg_fuel_efficiency = 0 :=
  ⟨(analytics_zero_guard 0 30 none none none []).1 rfl,
   (analytics_zero_guard 0 30 none none none []).2.2 (by decide)⟩

/-- Counterexample for C4: with a two-day window the first `profit_trends`
entry is the NEWEST day (start of window + 1 day) and the last entry is the
OLDEST day (start of window) — the series runs newest-first, not
oldest-first as claimed. -/
theorem profit_trends_order_counterexample :
    (get_analytics_profit_trends 172800 2 none none none []).map
        TrendEntry.date = [86400, 0] ∧
    ¬ (get_analytics_profit_trends 172800 2 none none none []).map
        TrendEntry.date = [0, 86400] := by
  constructor
  · rfl
  · decide

lemma completed_day_filter (now : Int) (days : Nat) (trips : List Trip)
    (day : Int) (h1 : now - (days : Int) * 86400 ≤ day)
    (h2 : day + 86400 ≤ now) :
    (completedTripsOf now days none none none trips).filter (fun t =>
      match t.start_date with
      | some sd => decide (day ≤ sd) && decide (sd < day + 86400)
      | none => false)
    = trips.filter (fun t =>
        t.status == "Completed" &&
        (match t.start_date with
         | some sd => decide (day ≤ sd) && decide (sd < day + 86400)
         | none => false)) := by
  unfold completedTripsOf analyticsTripQuery
  simp only [List.filter_filter]
  apply List.filter_congr
  intro t _
  cases hsd : t.start_date with
  | none => simp
  | some sd =>
      by_cases hin : day ≤ sd ∧ sd < day + 86400
      · have hw1 : now - (days : Int) * 86400 ≤ sd := le_trans h1 hin.1
        have hw2 : sd ≤ now := by omega
        simp [hin.1, hin.2, hw1, hw2]
      · rw [not_and_or] at hin
        rcases hin with h | h <;> simp [h]

lemma profitTrendEntry_profit_spec (now : Int) (days : Nat)
    (trips : List Trip) (i : Nat) (hi : i < days) :
    (profitTrendEntry (now - (days : Int) * 86400)
      (completedTripsOf now days none none none trips) i).profit
    = dayProfitSpec trips
        (now - (days : Int) * 86400 + (i : Int) * 86400) := by
  have h1 : now - (days : Int) * 86400
      ≤ now - (days : Int) * 86400 + (i : Int) * 86400 := by omega
  have h2 : (now - (days : Int) * 86400 + (i : Int) * 86400) + 86400
      ≤ now := by omega
  simp only [profitTrendEntry, dayProfitSpec]
  rw [completed_day_filter now days trips _ h1 h2]

/-- C4 (amended): the `profit_trends` series has exactly `days` entries;
entry `j` covers the day starting at `start + (days - 1 - j)` days — the
series runs from the NEWEST day down to the OLDEST (the loop iterates
`reversed(range(days))`) — and each entry's profit is that day's revenue
minus fuel cost minus other expenses over the completed trips whose
`start_date` falls within the day. -/
theorem profit_trends_series (now : Int) (days : Nat) (trips : List Trip) :
    (get_analytics_profit_trends now days none none none trips).length
      = days ∧
    ∀ j, j < days →
      ∃ entry, (get_analytics_profit_trends now days none none none
          trips).get? j = some entry ∧
        entry.date = now - (days : Int) * 86400
          + ((days : Int) - 1 - (j : Int)) * 86400 ∧
        entry.profit = dayProfitSpec trips entry.date := by
  constructor
  · simp [get_analytics_profit_trends, profit_trends]
  · intro j hj
    have hjlen : j < ((List.range days).reverse).length := by simpa using hj
    have hval : ((List.range days).reverse).get ⟨j, hjlen⟩ = days - 1 - j := by
      rw [List.get_eq_getElem, List.getElem_reverse]
      simp [List.getElem_range]
    have hrev : ((List.range days).reverse).get? j = some (days - 1 - j) := by
      rw [List.get?_eq_get hjlen, hval]
    have hget : (get_analytics_profit_trends now days none none none
        trips).get? j
        = some (profitTrendEntry (now - (days : Int) * 86400)
            (completedTripsOf now days none none none trips)
            (days - 1 - j)) := by
      unfold get_analytics_profit_trends profit_trends
      rw [List.get?_map, hrev]
      rfl
    have hcast : ((days - 1 - j : Nat) : Int) = (days : Int) - 1 - j := by
      omega
    refine ⟨_, hget, ?_, ?_⟩
    · show (profitTrendEntry _ _ (days - 1 - j)).date = _
      simp [profitTrendEntry, hcast]
    · show (profitTrendEntry _ _ (days - 1 - j)).profit
        = dayProfitSpec trips (profitTrendEntry _ _ (days - 1 - j)).date
      have hdate : (profitTrendEntry (now - (days : Int) * 86400)
          (completedTripsOf now days none none none trips)
          (days - 1 - j)).date
          = now - (days : Int) * 86400 + ((days - 1 - j : Nat) : Int)
            * 86400 := by
        simp [profitTrendEntry]
      rw [hdate]
      exact profitTrendEntry_profit_spec now days trips (days - 1 - j)
        (by omega)

/-- Witness for C4's amended theorem: one-day window with a single completed
trip on that day. -/
theorem profit_trends_series_witness :
    (get_analytics_profit_trends 86400 1 none none none
        [⟨1, "T1", 1, 1, some 0, some 3600, "Completed", none, some 10,
          some 1, some 100, some 5, some 20, some 0, some 0, some 0, some 0,
          some 0, some 0, some 30, some 50, ""⟩]).length = 1 ∧
    ∃ entry, (get_analytics_profit_trends 86400 1 none none none
        [⟨1, "T1", 1, 1, some 0, some 3600, "Completed", none, some 10,
          some 1, some 100, some 5, some 20, some 0, some 0, some 0, some 0,
          some 0, some 0, some 30, some 50, ""⟩]).get? 0 = some entry ∧
      entry.date = 86400 - (1 : Int) * 86400 + ((1 : Int) - 1 - (0 : Int))
        * 86400 ∧
      entry.profit = dayProfitSpec
        [⟨1, "T1", 1, 1, some 0, some 3600, "Completed", none, some 10,
          some 1, some 100, some 5, some 20, some 0, some 0, some 0, some 0,
          some 0, some 0, some 30, some 50, ""⟩] entry.date :=
  ⟨(profit_trends_series 86400 1
      [⟨1, "T1", 1, 1, some 0, some 3600, "Completed", none, some 10, some 1,
        some 100, some 5, some 20, some 0, some 0, some 0, some 0, some 0,
        some 0, some 30, some 50, ""⟩]).1,
   (profit_trends_series 86400 1
      [⟨1, "T1", 1, 1, some 0, some 3600, "Completed", none, some 10, some 1,
        some 100, some 5, some 20, some 0, some 0, some 0, some 0, some 0,
        some 0, some 30, some 50, ""⟩]).2 0 (by decide)⟩

/-! ### Trips and sub-trips (`src/routes/trips.py`) -/

/-- A `subtrips`-collection document (trips.py lines 301–311). -/
structure SubTrip where
  id : Nat
  trip_id : Nat
  trip_code : String
  date : Int
  end_date : Int
  origin : String
  destination : String
  client_name : String
  cargo_weight : ℚ
  cost : ℚ
deriving DecidableEq, Repr

/-- The non-2xx responses of the handlers: 400 validation errors,
404 not-found, 500 for uncaught exceptions (e.g. a `KeyError`). -/
inductive ApiErr where
  | badRequest (msg : String)
  | notFound (msg : String)
  | serverError (msg : String)
deriving DecidableEq, Repr

/-- The store state the trips routes read and write. -/
structure FleetDB where
  trips : List Trip
  subtrips : List SubTrip
  employees : List Employee
  nextId : Nat
deriving DecidableEq, Repr

/-- `Trip.update_one(trip_id, ...)`: modify the first document with that id. -/
def modifyFirstTrip (trip_id : Nat) (f : Trip → Trip) :
    List Trip → List Trip
  | [] => []
  | t :: rest =>
      if t.id == trip_id then f t :: rest
      else t :: modifyFirstTrip trip_id f rest

/-- `SubTrip.update_one(subtrip_id, ...)`. -/
def modifyFirstSubTrip (subtrip_id : Nat) (f : SubTrip → SubTrip) :
    List SubTrip → List SubTrip
  | [] => []
  | s :: rest =>
      if s.id == subtrip_id then f s :: rest
      else s :: modifyFirstSubTrip subtrip_id f rest

/-- `SubTrip.delete_one(subtrip_id)`: remove the first document with id. -/
def removeFirstSubTrip (subtrip_id : Nat) : List SubTrip → List SubTrip
  | [] => []
  | s :: rest =>
      if s.id == subtrip_id then rest
      else s :: removeFirstSubTrip subtrip_id rest

/-- trips.py lines 24–27: recompute the trip's `revenue` as the sum of
`cost` over all sub-trips referencing it (every stored cost is a float
written by `parse_float`, so `float(cost or 0)` is the value itself). -/
def update_trip_revenue (trip_id : Nat) (db : FleetDB) : FleetDB :=
  let subtrips := db.subtrips.filter fun s => s.trip_id == trip_id
  let total_revenue := (subtrips.map SubTrip.cost).sum
  let newTrips := modifyFirstTrip trip_id
    (fun t => { t with revenue := some total_revenue }) db.trips
  { db with trips := newTrips }

/-- A sub-trip request body; numeric fields carry the `parse_float` result
of a present value (`none` = key absent). -/
structure SubtripReq where
  date : Option Int
  end_date : Option Int
  origin : Option String
  destination : Option String
  client_name : Option String
  cargo_weight : Option ℚ
  cost : Option ℚ
deriving DecidableEq, Repr

/-- `POST /trips/{id}/subtrips` (trips.py lines 283–317): required-field
check, `date <= end_date` validation, 404 on unknown trip, insert, then
`update_trip_revenue`. -/
def create_subtrip (trip_id : Nat) (req : SubtripReq) (db : FleetDB) :
    Except ApiErr FleetDB :=
  match req.date, req.end_date, req.origin, req.destination, req.client_name,
      req.cargo_weight, req.cost with
  | some date_val, some end_date_val, some origin, some destination,
      some client_name, some cargo_weight, some cost =>
      if date_val > end_date_val then
        .error (.badRequest "Date cannot be after End Date")
      else
        match db.trips.find? (fun t => t.id == trip_id) with
        | none => .error (.notFound "Trip not found")
        | some trip =>
            let subtrip_doc : SubTrip :=
              { id := db.nextId, trip_id := trip_id,
                trip_code := trip.trip_number, date := date_val,
                end_date := end_date_val, origin := origin,
                destination := destination, client_name := client_name,
                cargo_weight := cargo_weight, cost := cost }
            let db1 := { db with subtrips := db.subtrips ++ [subtrip_doc],
                                 nextId := db.nextId + 1 }
            .ok (update_trip_revenue trip_id db1)
  | _, _, _, _, _, _, _ => .error (.badRequest "Missing required field")

/-- `PUT /trips/{id}/subtrips/{sid}` (trips.py lines 319–349): supplied
`cargo_weight`/`cost` are rejected when negative (in field order); the
`date <= end_date` check fires only when BOTH date fields are supplied;
then the supplied fields are `$set` on the document and the revenue is
recomputed. -/
def update_subtrip (trip_id subtrip_id : Nat) (req : SubtripReq)
    (db : FleetDB) : Except ApiErr FleetDB :=
  match db.subtrips.find? (fun s => s.id == subtrip_id) with
  | none => .error (.notFound "Sub Trip not found")
  | some subtrip =>
      if subtrip.trip_id != trip_id then
        .error (.notFound "Sub Trip not found")
      else if (match req.cargo_weight with
               | some w => decide (w < 0)
               | none => false) then
        .error (.badRequest "Cargo Weight must be >= 0")
      else if (match req.cost with
               | some c => decide (c < 0)
               | none => false) then
        .error (.badRequest "Cost must be >= 0")
      else if (match req.date, req.end_date with
               | some d, some ed => decide (d > ed)
               | _, _ => false) then
        .error (.badRequest "Date cannot be after End Date")
      else
        let newSubs := modifyFirstSubTrip subtrip_id
          (fun old =>
            { old with
              date := req.date.getD old.date,
              end_date := req.end_date.getD old.end_date,
              origin := req.origin.getD old.origin,
              destination := req.destination.getD old.destination,
              client_name := req.client_name.getD old.client_name,
              cargo_weight := req.cargo_weight.getD old.cargo_weight,
              cost := req.cost.getD old.cost }) db.subtrips
        let db1 := { db with subtrips := newSubs }
        .ok (update_trip_revenue trip_id db1)

/-- `DELETE /trips/{id}/subtrips/{sid}` (trips.py lines 351–361). -/
def delete_subtrip (trip_id subtrip_id : Nat) (db : FleetDB) :
    Except ApiErr FleetDB :=
  match db.subtrips.find? (fun s => s.id == subtrip_id) with
  | none => .error (.notFound "Sub Trip not found")
  | some subtrip =>
      if subtrip.trip_id != trip_id then
        .error (.notFound "Sub Trip not found")
      else
        let db1 := { db with
          subtrips := removeFirstSubTrip subtrip_id db.subtrips }
        .ok (update_trip_revenue trip_id db1)

/-- A trip request body (`POST /trips` and `PUT /trips/{id}`); numeric
fields carry the `parse_float` result of a present value. -/
structure TripReq where
  trip_number : Option String
  truck_id : Option Nat
  driver_id : Option Nat
  start_date : Option Int
  end_date : Option Int
  distance_km : Option ℚ
  mileage : Option ℚ
  revenue : Option ℚ
  fuel_consumed : Option ℚ
  fuel_cost : Option ℚ
  toll : Option ℚ
  rto : Option ℚ
  adblue : Option ℚ
  driver_salary : Option ℚ
  labour_charges : Option ℚ
  extra_expense : Option ℚ
  profit : Option ℚ
  status : Option String
  notes : Option String
deriving DecidableEq, Repr

/-- Python `str.lower()` (ASCII data, as used for status/position values). -/
def str_lower (s : String) : String := ⟨s.data.map Char.toLower⟩

/-- BSON-typed `$lte`: a stored null/missing date only compares against a
null query value; dates compare numerically. -/
def mongoLe : Option Int → Option Int → Bool
  | some a, some b => decide (a ≤ b)
  | none, none => true
  | _, _ => false

/-- BSON-typed `$gte`. -/
def mongoGe : Option Int → Option Int → Bool
  | some a, some b => decide (a ≥ b)
  | none, none => true
  | _, _ => false

/-- The driver double-booking `$or` filter (trips.py lines 124–132 for
create, 205–214 for update, which also excludes the trip being updated):
an existing non-cancelled trip of the same driver whose `[start_date,
end_date]` span touches the requested one. -/
def driverConflict (driver_id : Nat) (start_date end_date : Option Int)
    (excluded : Option Nat) (t : Trip) : Bool :=
  t.driver_id == driver_id && t.status != "Cancelled" &&
  (match excluded with
   | some i => t.id != i
   | none => true) &&
  ((mongoLe t.start_date start_date && mongoGe t.end_date start_date) ||
   (mongoLe t.start_date end_date && mongoGe t.end_date end_date) ||
   (mongoGe t.start_date start_date && mongoLe t.end_date end_date))

/-- `POST /trips` (trips.py lines 100–178): required fields, unique
`trip_number`, date parse (a missing `start_date` raises a `KeyError`
caught as a 500), active-driver check (case-insensitive), double-booking
check, and insertion of the document built from the request. -/
def create_trip (req : TripReq) (db : FleetDB) : Except ApiErr FleetDB :=
  match req.trip_number, req.truck_id, req.driver_id with
  | some trip_number, some truck_id, some driver_id =>
      if db.trips.any (fun t => t.trip_number == trip_number) then
        .error (.badRequest "Trip number already exists")
      else
        match req.start_date with
        | none => .error (.serverError "start_date")
        | some start_date =>
            let end_date : Option Int := req.end_date
            match db.employees.find? (fun e => e.id == driver_id) with
            | none => .error (.badRequest "Driver is not active or not a driver")
            | some driver =>
                if str_lower driver.status != "active"
                    || str_lower driver.position != "driver" then
                  .error (.badRequest "Driver is not active or not a driver")
                else if db.trips.any
                    (driverConflict driver_id (some start_date) end_date
                      none) then
                  .error (.badRequest
                    "Driver is already assigned to another trip during these dates")
                else
                  let other_expenses := req.toll.getD 0 + req.rto.getD 0
                    + req.driver_salary.getD 0 + req.labour_charges.getD 0
                    + req.adblue.getD 0 + req.extra_expense.getD 0
                  let trip_doc : Trip :=
                    { id := db.nextId, trip_number := trip_number,
                      truck_id := truck_id, driver_id := driver_id,
                      start_date := some start_date, end_date := end_date,
                      status := req.status.getD "Planned", region := none,
                      distance_km := some (req.distance_km.getD 0),
                      mileage := some (req.mileage.getD 0),
                      revenue := some (req.revenue.getD 0),
                      fuel_consumed := some (req.fuel_consumed.getD 0),
                      fuel_cost := some (req.fuel_cost.getD 0),
                      toll := some (req.toll.getD 0),
                      rto := some (req.rto.getD 0),
                      adblue := some (req.adblue.getD 0),
                      driver_salary := some (req.driver_salary.getD 0),
                      labour_charges := some (req.labour_charges.getD 0),
                      extra_expense := some (req.extra_expense.getD 0),
                      other_expenses := some other_expenses,
                      profit := some (req.profit.getD 0),
                      notes := req.notes.getD "" }
                  .ok { db with trips := db.trips ++ [trip_doc],
                                nextId := db.nextId + 1 }
  | _, _, _ => .error (.badRequest "Missing required field")

/-- `PUT /trips/{id}` (trips.py lines 180–258): 404 on unknown id, unique
`trip_number` when changed, supplied-or-stored driver and dates resolved
before the same driver checks, partial `$set` of supplied fields with
`other_expenses` recomputed from supplied-or-stored components. -/
def update_trip (trip_id : Nat) (req : TripReq) (db : FleetDB) :
    Except ApiErr FleetDB :=
  match db.trips.find? (fun t => t.id == trip_id) with
  | none => .error (.notFound "Trip not found")
  | some trip =>
      if (match req.trip_number with
          | some tn => tn != trip.trip_number &&
              db.trips.any (fun t => t.trip_number == tn && t.id != trip_id)
          | none => false) then
        .error (.badRequest "Trip number already exists")
      else
        let driver_id := req.driver_id.getD trip.driver_id
        let start_date : Option Int :=
          match req.start_date with
          | some sd => some sd
          | none => trip.start_date
        let end_date : Option Int :=
          match req.end_date with
          | some ed => some ed
          | none => trip.end_date
        match db.employees.find? (fun e => e.id == driver_id) with
        | none => .error (.badRequest "Driver is not active or not a driver")
        | some driver =>
            if str_lower driver.status != "active"
                || str_lower driver.position != "driver" then
              .error (.badRequest "Driver is not active or not a driver")
            else if db.trips.any
                (driverConflict driver_id start_date end_date
                  (some trip_id)) then
              .error (.badRequest
                "Driver is already assigned to another trip during these dates")
            else
              let other_expenses := (req.toll <|> trip.toll).getD 0
                + (req.rto <|> trip.rto).getD 0
                + (req.driver_salary <|> trip.driver_salary).getD 0
                + (req.labour_charges <|> trip.labour_charges).getD 0
                + (req.adblue <|> trip.adblue).getD 0
                + (req.extra_expense <|> trip.extra_expense).getD 0
              let apply_update : Trip → Trip := fun t =>
                { t with
                  trip_number := req.trip_number.getD t.trip_number,
                  truck_id := req.truck_id.getD t.truck_id,
                  driver_id := req.driver_id.getD t.driver_id,
                  distance_km := (req.distance_km.map some).getD t.distance_km,
                  mileage := (req.mileage.map some).getD t.mileage,
                  revenue := (req.revenue.map some).getD t.revenue,
                  fuel_consumed :=
                    (req.fuel_consumed.map some).getD t.fuel_consumed,
                  fuel_cost := (req.fuel_cost.map some).getD t.fuel_cost,
                  toll := (req.toll.map some).getD t.toll,
                  rto := (req.rto.map some).getD t.rto,
                  adblue := (req.adblue.map some).getD t.adblue,
                  driver_salary :=
                    (req.driver_salary.map some).getD t.driver_salary,
                  labour_charges :=
                    (req.labour_charges.map some).getD t.labour_charges,
                  extra_expense :=
                    (req.extra_expense.map some).getD t.extra_expense,
                  profit := (req.profit.map some).getD t.profit,
                  status := req.status.getD t.status,
                  notes := req.notes.getD t.notes,
                  start_date := (req.start_date.map some).getD t.start_date,
                  end_date := (req.end_date.map some).getD t.end_date,
                  other_expenses := some other_expenses }
              let newTrips := modifyFirstTrip trip_id apply_update db.trips
              .ok { db with trips := newTrips }

/-- C5's invariant: the trip's stored `revenue` is the sum of `cost` over
the sub-trips referencing it. -/
def RevenueInvariant (trip_id : Nat) (db : FleetDB) : Prop :=
  ∀ t, db.trips.find? (fun t => t.id == trip_id) = some t →
    t.revenue = some (((db.subtrips.filter
      (fun s => s.trip_id == trip_id)).map SubTrip.cost).sum)

lemma find?_modifyFirstTrip (trip_id : Nat) (f : Trip → Trip)
    (l : List Trip) (hf : ∀ t, (f t).id = t.id) :
    (modifyFirstTrip trip_id f l).find? (fun t => t.id == trip_id)
      = (l.find? (fun t => t.id == trip_id)).map f := by
  induction l with
  | nil => rfl
  | cons t rest ih =>
      by_cases h : (t.id == trip_id) = true
      · have hft : ((f t).id == trip_id) = true := by
          rw [hf t]; exact h
        simp [modifyFirstTrip, h, List.find?_cons, hft]
      · simp only [Bool.not_eq_true] at h
        simp [modifyFirstTrip, h, List.find?_cons, ih]

lemma RevenueInvariant_update_trip_revenue (trip_id : Nat) (db : FleetDB) :
    RevenueInvariant trip_id (update_trip_revenue trip_id db) := by
  intro t ht
  simp only [update_trip_revenue] at ht ⊢
  set v : ℚ := ((db.subtrips.filter
    (fun s => s.trip_id == trip_id)).map SubTrip.cost).sum with hv
  rw [find?_modifyFirstTrip trip_id (fun t => { t with revenue := some v })
    db.trips (fun t => rfl)] at ht
  cases hfind : db.trips.find? (fun t => t.id == trip_id) with
  | none => rw [hfind] at ht; simp at ht
  | some t0 =>
      rw [hfind] at ht
      simp only [Option.map, Option.some.injEq] at ht
      rw [← ht]

/-- C5: after every successful sub-trip create, update or delete, the
referenced trip's `revenue` equals the sum of `cost` over the sub-trips
referencing it (each handler ends in `update_trip_revenue`). -/
theorem subtrip_mutation_revenue (trip_id subtrip_id : Nat)
    (req : SubtripReq) (db db' : FleetDB) :
    (create_subtrip trip_id req db = .ok db' →
      RevenueInvariant trip_id db') ∧
    (update_subtrip trip_id subtrip_id req db = .ok db' →
      RevenueInvariant trip_id db') ∧
    (delete_subtrip trip_id subtrip_id db = .ok db' →
      RevenueInvariant trip_id db') := by
  refine ⟨?_, ?_, ?_⟩
  · intro h
    unfold create_subtrip at h
    repeat' split at h
    all_goals first
      | (simp only [Except.ok.injEq] at h
         subst h
         exact RevenueInvariant_update_trip_revenue trip_id _)
      | exact absurd h (by simp)
  · intro h
    unfold update_subtrip at h
    repeat' split at h
    all_goals first
      | (simp only [Except.ok.injEq] at h
         subst h
         exact RevenueInvariant_update_trip_revenue trip_id _)
      | exact absurd h (by simp)
  · intro h
    unfold delete_subtrip at h
    repeat' split at h
    all_goals first
      | (simp only [Except.ok.injEq] at h
         subst h
         exact RevenueInvariant_update_trip_revenue trip_id _)
      | exact absurd h (by simp)

/-- Witness for C5: creating a third sub-trip (cost 0) for a trip already
carrying sub-trips of costs 100 and 250 re-establishes the invariant, and
the recomputed revenue is 350. -/
theorem subtrip_mutation_revenue_witness :
    RevenueInvariant 1 (update_trip_revenue 1
      ⟨[⟨1, "T1", 2, 3, some 0, some 10, "Planned", none, some 0, some 0,
          some 0, some 0, some 0, some 0, some 0, some 0, some 0, some 0,
          some 0, some 0, some 0, ""⟩],
        [⟨10, 1, "T1", 0, 5, "A", "B", "C1", 1, 100⟩,
         ⟨11, 1, "T1", 0, 5, "A", "B", "C2", 1, 250⟩,
         ⟨12, 1, "T1", 0, 5, "A", "B", "C3", 1, 0⟩], [], 13⟩) ∧
    (update_trip_revenue 1
      ⟨[⟨1, "T1", 2, 3, some 0, some 10, "Planned", none, some 0, some 0,
          some 0, some 0, some 0, some 0, some 0, some 0, some 0, some 0,
          some 0, some 0, some 0, ""⟩],
        [⟨10, 1, "T1", 0, 5, "A", "B", "C1", 1, 100⟩,
         ⟨11, 1, "T1", 0, 5, "A", "B", "C2", 1, 250⟩,
         ⟨12, 1, "T1", 0, 5, "A", "B", "C3", 1, 0⟩], [],
        13⟩).trips.map (fun t => t.revenue) = [some 350] := by
  constructor
  · exact (subtrip_mutation_revenue 1 0
      ⟨some 0, some 5, some "A", some "B", some "C3", some 1, some 0⟩
      ⟨[⟨1, "T1", 2, 3, some 0, some 10, "Planned", none, some 0, some 0,
          some 0, some 0, some 0, some 0, some 0, some 0, some 0, some 0,
          some 0, some 0, some 0, ""⟩],
        [⟨10, 1, "T1", 0, 5, "A", "B", "C1", 1, 100⟩,
         ⟨11, 1, "T1", 0, 5, "A", "B", "C2", 1, 250⟩], [], 12⟩ _).1 rfl
  · simp [update_trip_revenue, modifyFirstTrip]
    norm_num

/-- Closed-interval overlap of `[s1, e1]` and `[s2, e2]`. -/
def intervalsOverlap (s1 e1 s2 e2 : Int) : Prop := s1 ≤ e2 ∧ s2 ≤ e1

/-- C7: driver double-booking. (a) Creating trip B when a non-Cancelled
trip A of the same driver has an overlapping `[start_date, end_date]` span
is rejected with a 400 (the handler returns before any insert, so nothing
is written). (b) If every trip of the driver is Cancelled, creation
succeeds and appends one trip document. (c) Updating an existing trip into
overlapping dates is likewise rejected with a 400. -/
theorem driver_double_booking (db : FleetDB) :
    (∀ (req : TripReq) (A : Trip) (as_ ae bs be : Int) (d : Nat)
        (tn : String) (tk : Nat),
      A ∈ db.trips → A.driver_id = d → A.status ≠ "Cancelled" →
      A.start_date = some as_ → A.end_date = some ae → as_ ≤ ae →
      req.trip_number = some tn → req.truck_id = some tk →
      req.driver_id = some d → req.start_date = some bs →
      req.end_date = some be → bs ≤ be →
      intervalsOverlap as_ ae bs be →
      ∃ msg, create_trip req db = .error (.badRequest msg)) ∧
    (∀ (req : TripReq) (d : Nat) (tn : String) (tk : Nat) (bs be : Int)
        (drv : Employee),
      req.trip_number = some tn → req.truck_id = some tk →
      req.driver_id = some d → req.start_date = some bs →
      req.end_date = some be →
      (db.trips.any fun t => t.trip_number == tn) = false →
      db.employees.find? (fun e => e.id == d) = some drv →
      str_lower drv.status = "active" → str_lower drv.position = "driver" →
      (∀ t ∈ db.trips, t.driver_id = d → t.status = "Cancelled") →
      ∃ db', create_trip req db = .ok db' ∧
        db'.trips.length = db.trips.length + 1) ∧
    (∀ (trip_id : Nat) (req : TripReq) (trip A : Trip)
        (as_ ae bs be : Int) (d : Nat),
      db.trips.find? (fun t => t.id == trip_id) = some trip →
      A ∈ db.trips → A.id ≠ trip_id → A.driver_id = d →
      A.status ≠ "Cancelled" →
      A.start_date = some as_ → A.end_date = some ae → as_ ≤ ae →
      req.driver_id = some d → req.start_date = some bs →
      req.end_date = some be → bs ≤ be →
      intervalsOverlap as_ ae bs be →
      ∃ msg, update_trip trip_id req db = .error (.badRequest msg)) := by
  refine ⟨?_, ?_, ?_⟩
  · intro req A as_ ae bs be d tn tk hA hdrv hstA hsA heA hwA htn htk hdid
      hsd hed hwB hov
    have hconf : (db.trips.any
        (driverConflict d (some bs) (some be) none)) = true := by
      rw [List.any_eq_true]
      refine ⟨A, hA, ?_⟩
      unfold driverConflict mongoLe mongoGe
      rw [hsA, heA, hdrv]
      simp only [beq_self_eq_true, Bool.true_and, bne_iff_ne, ne_eq,
        Bool.and_eq_true, Bool.or_eq_true, decide_eq_true_eq]
      refine ⟨⟨hstA, trivial⟩, ?_⟩
      obtain ⟨h1, h2⟩ := hov
      omega
    unfold create_trip
    simp only [htn, htk, hdid, hsd, hed, hconf, eq_self_iff_true, if_true]
    repeat' split
    all_goals exact ⟨_, rfl⟩
  · intro req d tn tk bs be drv htn htk hdid hsd hed hnum hfind hst hpos
      hcancel
    have hconf : (db.trips.any
        (driverConflict d (some bs) (some be) none)) = false := by
      rw [Bool.eq_false_iff]
      intro hc
      rw [List.any_eq_true] at hc
      obtain ⟨t, ht, hct⟩ := hc
      unfold driverConflict at hct
      simp only [Bool.and_eq_true, beq_iff_eq, bne_iff_ne, ne_eq] at hct
      have hd1 : t.driver_id = d := by tauto
      have hd2 : ¬ t.status = "Cancelled" := by tauto
      exact hd2 (hcancel t ht hd1)
    unfold create_trip
    rw [htn, htk, hdid, hsd, hed]
    simp only [hnum, hfind, hst, hpos, hconf, Bool.false_eq_true, if_false,
      bne_self_eq_false, Bool.or_self, Bool.false_or, Bool.or_false]
    refine ⟨_, rfl, by simp⟩
  · intro trip_id req trip A as_ ae bs be d hfind hA hidA hdrv hstA hsA heA
      hwA hdid hsd hed hwB hov
    have hconf : (db.trips.any
        (driverConflict d (some bs) (some be) (some trip_id))) = true := by
      rw [List.any_eq_true]
      refine ⟨A, hA, ?_⟩
      unfold driverConflict mongoLe mongoGe
      rw [hsA, heA, hdrv]
      simp only [beq_self_eq_true, Bool.true_and, bne_iff_ne, ne_eq,
        Bool.and_eq_true, Bool.or_eq_true, decide_eq_true_eq]
      refine ⟨⟨hstA, hidA⟩, ?_⟩
      obtain ⟨h1, h2⟩ := hov
      omega
    unfold update_trip
    simp only [hfind, hdid, hsd, hed, Option.getD_some, hconf,
      eq_self_iff_true, if_true]
    repeat' split
    all_goals exact ⟨_, rfl⟩

/-- Witness for C7: with the only same-driver trip Cancelled, creating the
new trip succeeds (conjunct (b) of the theorem at a concrete store). -/
theorem driver_double_booking_witness :
    ∃ db', create_trip
      ⟨some "T1", some 2, some 3, some 10, some 50, none, none, none, none,
        none, none, none, none, none, none, none, none, none, none⟩
      ⟨[⟨1, "T0", 2, 3, some 0, some 100, "Cancelled", none, some 0, some 0,
          some 0, some 0, some 0, some 0, some 0, some 0, some 0, some 0,
          some 0, some 0, some 0, ""⟩], [],
        [⟨3, "Active", "Driver", "E3", none⟩], 5⟩ = .ok db' ∧
      db'.trips.length =
        ([⟨1, "T0", 2, 3, some 0, some 100, "Cancelled", none, some 0,
           some 0, some 0, some 0, some 0, some 0, some 0, some 0, some 0,
           some 0, some 0, some 0, some 0, ""⟩] : List Trip).length + 1 :=
  (driver_double_booking
    ⟨[⟨1, "T0", 2, 3, some 0, some 100, "Cancelled", none, some 0, some 0,
        some 0, some 0, some 0, some 0, some 0, some 0, some 0, some 0,
        some 0, some 0, some 0, ""⟩], [],
      [⟨3, "Active", "Driver", "E3", none⟩], 5⟩).2.1
    ⟨some "T1", some 2, some 3, some 10, some 50, none, none, none, none,
      none, none, none, none, none, none, none, none, none, none⟩
    3 "T1" 2 10 50 ⟨3, "Active", "Driver", "E3", none⟩
    rfl rfl rfl rfl rfl rfl rfl rfl rfl
    (by
      intro t ht _
      rw [List.mem_singleton] at ht
      subst ht
      rfl)

/-- Counterexample for C8: a sub-trip update supplying only `date` (no
`end_date`) succeeds even though the new stored date (10) is after the
stored `end_date` (5) — the handler's pair check only fires when BOTH
fields are in the request. -/
theorem subtrip_update_date_counterexample :
    update_subtrip 1 2 ⟨some 10, none, none, none, none, none, none⟩
      ⟨[⟨1, "T1", 2, 3, some 0, some 10, "Planned", none, some 0, some 0,
          some 0, some 0, some 0, some 0, some 0, some 0, some 0, some 0,
          some 0, some 0, some 0, ""⟩],
        [⟨2, 1, "T1", 0, 5, "A", "B", "C", 1, 10⟩], [], 20⟩
      = .ok (update_trip_revenue 1
        ⟨[⟨1, "T1", 2, 3, some 0, some 10, "Planned", none, some 0, some 0,
            some 0, some 0, some 0, some 0, some 0, some 0, some 0, some 0,
            some 0, some 0, some 0, ""⟩],
          [⟨2, 1, "T1", 10, 5, "A", "B", "C", 1, 10⟩], [], 20⟩) ∧
    (update_trip_revenue 1
      ⟨[⟨1, "T1", 2, 3, some 0, some 10, "Planned", none, some 0, some 0,
          some 0, some 0, some 0, some 0, some 0, some 0, some 0, some 0,
          some 0, some 0, some 0, ""⟩],
        [⟨2, 1, "T1", 10, 5, "A", "B", "C", 1, 10⟩], [],
        20⟩).subtrips.map SubTrip.date = [10] ∧
    (update_trip_revenue 1
      ⟨[⟨1, "T1", 2, 3, some 0, some 10, "Planned", none, some 0, some 0,
          some 0, some 0, some 0, some 0, some 0, some 0, some 0, some 0,
          some 0, some 0, some 0, ""⟩],
        [⟨2, 1, "T1", 10, 5, "A", "B", "C", 1, 10⟩], [],
        20⟩).subtrips.map SubTrip.end_date = [5] ∧
    (10 : Int) > 5 :=
  ⟨rfl, rfl, rfl, by decide⟩

/-- C8 (amended): sub-trip creation always rejects `date > end_date` with a
400, and a sub-trip update rejects with a 400 whenever BOTH `date` and
`end_date` are supplied with `date > end_date`; an update supplying only
one of the two fields is not checked against the stored other bound (see
the counterexample). -/
theorem subtrip_date_validation (trip_id subtrip_id : Nat)
    (req : SubtripReq) (db : FleetDB) :
    (∀ dv ev o dst cn cw c, req.date = some dv → req.end_date = some ev →
      req.origin = some o → req.destination = some dst →
      req.client_name = some cn → req.cargo_weight = some cw →
      req.cost = some c → dv > ev →
      create_subtrip trip_id req db
        = .error (.badRequest "Date cannot be after End Date")) ∧
    (∀ dv ev sub, req.date = some dv → req.end_date = some ev → dv > ev →
      db.subtrips.find? (fun s => s.id == subtrip_id) = some sub →
      sub.trip_id = trip_id →
      ∃ msg, update_subtrip trip_id subtrip_id req db
        = .error (.badRequest msg)) := by
  constructor
  · intro dv ev o dst cn cw c hd he ho hdst hcn hcw hc hgt
    unfold create_subtrip
    rw [hd, he, ho, hdst, hcn, hcw, hc]
    simp only [hgt, if_pos]
  · intro dv ev sub hd he hgt hfind htid
    unfold update_subtrip
    rw [hfind, hd, he]
    simp only [htid, bne_self_eq_false, Bool.false_eq_true, if_false]
    repeat' split
    all_goals first
      | exact ⟨_, rfl⟩
      | (exfalso
         simp_all)

/-- Witness for C8: a create with `date = 10 > end_date = 5` is rejected. -/
theorem subtrip_date_validation_witness :
    create_subtrip 1
      ⟨some 10, some 5, some "A", some "B", some "C", some 1, some 2⟩
      ⟨[], [], [], 0⟩
      = .error (.badRequest "Date cannot be after End Date") :=
  (subtrip_date_validation 1 0
    ⟨some 10, some 5, some "A", some "B", some "C", some 1, some 2⟩
    ⟨[], [], [], 0⟩).1 10 5 "A" "B" "C" 1 2 rfl rfl rfl rfl rfl rfl rfl
    (by decide)

/-- C10: sub-trip creation accepts a negative `cost` or `cargo_weight` and
stores the value as given (it then feeds `update_trip_revenue`, so the
revenue invariant holds over the negative cost), whereas sub-trip update
rejects a supplied negative `cost` or `cargo_weight` with a 400 before
writing. -/
theorem subtrip_negative_cost_asymmetry (trip_id subtrip_id : Nat)
    (req : SubtripReq) (db : FleetDB) :
    (∀ dv ev o dst cn cw c trip, req.date = some dv →
      req.end_date = some ev → req.origin = some o →
      req.destination = some dst → req.client_name = some cn →
      req.cargo_weight = some cw → req.cost = some c → ¬ dv > ev →
      db.trips.find? (fun t => t.id == trip_id) = some trip →
      ∃ db', create_subtrip trip_id req db = .ok db' ∧
        db'.subtrips.map SubTrip.cost
          = db.subtrips.map SubTrip.cost ++ [c] ∧
        db'.subtrips.map SubTrip.cargo_weight
          = db.subtrips.map SubTrip.cargo_weight ++ [cw] ∧
        RevenueInvariant trip_id db') ∧
    (∀ c sub, req.cost = some c → c < 0 →
      db.subtrips.find? (fun s => s.id == subtrip_id) = some sub →
      sub.trip_id = trip_id →
      ∃ msg, update_subtrip trip_id subtrip_id req db
        = .error (.badRequest msg)) ∧
    (∀ w sub, req.cargo_weight = some w → w < 0 →
      db.subtrips.find? (fun s => s.id == subtrip_id) = some sub →
      sub.trip_id = trip_id →
      update_subtrip trip_id subtrip_id req db
        = .error (.badRequest "Cargo Weight must be >= 0")) := by
  refine ⟨?_, ?_, ?_⟩
  · intro dv ev o dst cn cw c trip hd he ho hdst hcn hcw hc hle hfind
    unfold create_subtrip
    rw [hd, he, ho, hdst, hcn, hcw, hc]
    simp only [hfind, if_neg hle]
    refine ⟨_, rfl, ?_, ?_, ?_⟩
    · simp [update_trip_revenue]
    · simp [update_trip_revenue]
    · exact RevenueInvariant_update_trip_revenue trip_id _
  · intro c sub hc hneg hfind htid
    unfold update_subtrip
    rw [hfind, hc]
    simp only [htid, bne_self_eq_false, Bool.false_eq_true, if_false]
    repeat' split
    all_goals first
      | exact ⟨_, rfl⟩
      | (exfalso
         simp_all)
  · intro w sub hw hneg hfind htid
    unfold update_subtrip
    rw [hfind, hw]
    simp only [htid, bne_self_eq_false, Bool.false_eq_true, if_false]
    rw [if_pos (by simpa using hneg)]

/-- Witness for C10: cost −5 is accepted and stored by create, and the same
negative cost (or a negative cargo weight) is rejected by update. -/
theorem subtrip_negative_cost_asymmetry_witness :
    (∃ db', create_subtrip 1
        ⟨some 0, some 5, some "A", some "B", some "C", some 1, some (-5)⟩
        ⟨[⟨1, "T1", 2, 3, some 0, some 10, "Planned", none, some 0, some 0,
            some 0, some 0, some 0, some 0, some 0, some 0, some 0, some 0,
            some 0, some 0, some 0, ""⟩], [], [], 9⟩ = .ok db' ∧
      db'.subtrips.map SubTrip.cost = [] ++ [(-5 : ℚ)] ∧
      db'.subtrips.map SubTrip.cargo_weight = [] ++ [(1 : ℚ)] ∧
      RevenueInvariant 1 db') ∧
    (∃ msg, update_subtrip 1 2
      ⟨none, none, none, none, none, none, some (-5)⟩
      ⟨[], [⟨2, 1, "T1", 0, 5, "A", "B", "C", 1, 10⟩], [], 9⟩
      = .error (.badRequest msg)) :=
  ⟨(subtrip_negative_cost_asymmetry 1 0
      ⟨some 0, some 5, some "A", some "B", some "C", some 1, some (-5)⟩
      ⟨[⟨1, "T1", 2, 3, some 0, some 10, "Planned", none, some 0, some 0,
          some 0, some 0, some 0, some 0, some 0, some 0, some 0, some 0,
          some 0, some 0, some 0, ""⟩], [], [], 9⟩).1
      0 5 "A" "B" "C" 1 (-5)
      ⟨1, "T1", 2, 3, some 0, some 10, "Planned", none, some 0, some 0,
        some 0, some 0, some 0, some 0, some 0, some 0, some 0, some 0,
        some 0, some 0, some 0, ""⟩
      rfl rfl rfl rfl rfl rfl rfl (by decide) rfl,
   (subtrip_negative_cost_asymmetry 1 2
      ⟨none, none, none, none, none, none, some (-5)⟩
      ⟨[], [⟨2, 1, "T1", 0, 5, "A", "B", "C", 1, 10⟩], [], 9⟩).2.1
      (-5) ⟨2, 1, "T1", 0, 5, "A", "B", "C", 1, 10⟩ rfl (by norm_num)
      rfl rfl⟩

/-! ### Client payments (`src/routes/clientpayment.py`) -/

/-- A `clientpayments`-collection document (fields the PUT handler reads
and writes). -/
structure ClientPayment where
  id : Nat
  trip_code : String
  client_name : String
  cost : ℚ
  advance_payment : ℚ
  balance : ℚ
  status : String
deriving DecidableEq, Repr

/-- Python `str.capitalize()` (`to_proper_case`, clientpayment.py lines
14–17): first character upper-cased, the rest lower-cased. -/
def to_proper_case (s : String) : String :=
  match s.data with
  | [] => ""
  | ch :: rest => ⟨ch.toUpper :: rest.map Char.toLower⟩

/-- Python `str.strip()`: drop leading and trailing whitespace. -/
def str_strip (s : String) : String :=
  ⟨((s.data.dropWhile Char.isWhitespace).reverse.dropWhile
    Char.isWhitespace).reverse⟩

/-- The `PUT /client-payments/{id}` body fields the handler reads. -/
structure PaymentUpdateReq where
  status : Option String
  advance_payment : Option ℚ
  balance : Option ℚ
deriving DecidableEq, Repr

/-- `ClientPayment.update_one(payment_id, ...)`. -/
def modifyFirstPayment (payment_id : Nat)
    (f : ClientPayment → ClientPayment) :
    List ClientPayment → List ClientPayment
  | [] => []
  | p :: rest =>
      if p.id == payment_id then f p :: rest
      else p :: modifyFirstPayment payment_id f rest

/-- clientpayment.py lines 78–115. When the supplied status strips and
lowers to "received": `cost` is the STORED cost, `advance_payment` and
`balance` take the supplied value when present else the stored one,
`balance` is set to 0 when `advance + balance >= cost` and to
`cost - advance_payment` otherwise (no clamping at 0), and a supplied
`advance_payment` is also written. Otherwise the supplied fields among
advance_payment/balance/status are written directly. -/
def update_client_payment (payment_id : Nat) (req : PaymentUpdateReq)
    (payments : List ClientPayment) : Except ApiErr (List ClientPayment) :=
  match payments.find? (fun p => p.id == payment_id) with
  | none => .error (.notFound "Client payment not found")
  | some payment =>
      if (match req.status with
          | some st => str_lower (str_strip st) == "received"
          | none => false) then
        let st := req.status.getD ""
        let cost := payment.cost
        let advance_payment :=
          req.advance_payment.getD payment.advance_payment
        let balance := req.balance.getD payment.balance
        let total_paid := advance_payment + balance
        let new_balance : ℚ :=
          if total_paid ≥ cost then 0 else cost - advance_payment
        let apply_update : ClientPayment → ClientPayment := fun p =>
          { p with status := to_proper_case st,
                   balance := new_balance,
                   advance_payment :=
                     req.advance_payment.getD p.advance_payment }
        .ok (modifyFirstPayment payment_id apply_update payments)
      else
        let apply_update : ClientPayment → ClientPayment := fun p =>
          { p with
            advance_payment := req.advance_payment.getD p.advance_payment,
            balance := req.balance.getD p.balance,
            status := match req.status with
              | some st => to_proper_case st
              | none => p.status }
        .ok (modifyFirstPayment payment_id apply_update payments)

lemma find?_modifyFirstPayment (payment_id : Nat)
    (f : ClientPayment → ClientPayment) (l : List ClientPayment)
    (hf : ∀ p, (f p).id = p.id) :
    (modifyFirstPayment payment_id f l).find? (fun p => p.id == payment_id)
      = (l.find? (fun p => p.id == payment_id)).map f := by
  induction l with
  | nil => rfl
  | cons p rest ih =>
      by_cases h : (p.id == payment_id) = true
      · have hfp : ((f p).id == payment_id) = true := by
          rw [hf p]; exact h
        simp [modifyFirstPayment, h, List.find?_cons, hfp]
      · simp only [Bool.not_eq_true] at h
        simp [modifyFirstPayment, h, List.find?_cons, ih]

/-- Counterexample for C6: with stored `cost = 100`, `advance = 150`,
`balance = -100`, setting status to Received stores `balance = -50`
(`cost - advance_payment`, unclamped), while the claim's
`max(0, cost - advance_payment)` formula demands 0. -/
theorem client_payment_balance_counterexample :
    update_client_payment 1 ⟨some "received", none, none⟩
      [⟨1, "T1", "C", 100, 150, -100, "Pending"⟩]
      = .ok [⟨1, "T1", "C", 100, 150, -50, "Received"⟩] ∧
    ((-50 : ℚ) ≠ max 0 (100 - 150)) := by
  constructor
  · have hcond : (str_lower (str_strip "received") == "received") = true := by
      decide
    have hproper : to_proper_case "received" = "Received" := by decide
    unfold update_client_payment
    rw [show (([⟨1, "T1", "C", 100, 150, -100, "Pending"⟩] :
        List ClientPayment).find? (fun p => p.id == 1))
      = some ⟨1, "T1", "C", 100, 150, -100, "Pending"⟩ from rfl]
    simp only [hcond, if_true, hproper, modifyFirstPayment, Option.getD]
    norm_num
  · norm_num

/-- C6 (amended): when a PUT sets the status to Received (after strip and
lower-case), the handler uses the STORED cost, the supplied-else-stored
advance_payment and balance, and writes `balance := 0` when
`advance_payment + balance >= cost`, `balance := cost - advance_payment`
otherwise — which is NOT clamped at 0, and agrees with the claim's
`max(0, cost - advance_payment)` exactly when `cost >= advance_payment`
(e.g. whenever the considered balance is nonnegative). -/
theorem client_payment_received_balance (payment_id : Nat)
    (req : PaymentUpdateReq) (payments : List ClientPayment)
    (payment : ClientPayment) (st : String)
    (hfind : payments.find? (fun p => p.id == payment_id) = some payment)
    (hst : req.status = some st)
    (hrec : str_lower (str_strip st) = "received") :
    ∃ result, update_client_payment payment_id req payments = .ok result ∧
      result.find? (fun p => p.id == payment_id)
        = some { payment with
            status := to_proper_case st,
            advance_payment :=
              req.advance_payment.getD payment.advance_payment,
            balance :=
              if req.advance_payment.getD payment.advance_payment
                  + req.balance.getD payment.balance ≥ payment.cost then 0
              else payment.cost
                - req.advance_payment.getD payment.advance_payment } ∧
      (payment.cost ≥ req.advance_payment.getD payment.advance_payment →
        payment.cost - req.advance_payment.getD payment.advance_payment
          = max 0 (payment.cost
              - req.advance_payment.getD payment.advance_payment)) := by
  have hcond : (match req.status with
      | some st => str_lower (str_strip st) == "received"
      | none => false) = true := by
    rw [hst]
    simp [hrec]
  unfold update_client_payment
  simp only [hfind, hcond, eq_self_iff_true, if_true]
  refine ⟨_, rfl, ?_, ?_⟩
  · have hmap := find?_modifyFirstPayment payment_id
      (fun p => { p with
        status := to_proper_case (req.status.getD ""),
        balance := if req.advance_payment.getD payment.advance_payment
            + req.balance.getD payment.balance ≥ payment.cost then 0
          else payment.cost
            - req.advance_payment.getD payment.advance_payment,
        advance_payment := req.advance_payment.getD p.advance_payment })
      payments (fun p => rfl)
    rw [hmap, hfind]
    simp only [hst, Option.getD_some]
    rfl
  · intro hge
    exact (max_eq_right (sub_nonneg.mpr hge)).symm

/-- Witness for C6's amended theorem: the spec's example — stored cost 1000,
advance 600, stored balance 0, status set to Received with no balance
supplied — yields balance 400. -/
theorem client_payment_received_balance_witness :
    (∃ result, update_client_payment 1 ⟨some "Received", none, none⟩
        [⟨1, "T9", "C", 1000, 600, 0, "Pending"⟩] = .ok result ∧
      result.find? (fun p => p.id == 1)
        = some { (⟨1, "T9", "C", 1000, 600, 0, "Pending"⟩ : ClientPayment)
            with
            status := to_proper_case "Received",
            advance_payment :=
              (none : Option ℚ).getD 600,
            balance :=
              if (none : Option ℚ).getD 600 + (none : Option ℚ).getD 0
                  ≥ (1000 : ℚ) then 0
              else (1000 : ℚ) - (none : Option ℚ).getD 600 } ∧
      ((1000 : ℚ) ≥ (none : Option ℚ).getD 600 →
        (1000 : ℚ) - (none : Option ℚ).getD 600
          = max 0 ((1000 : ℚ) - (none : Option ℚ).getD 600))) ∧
    (if (none : Option ℚ).getD 600 + (none : Option ℚ).getD 0
        ≥ (1000 : ℚ) then (0 : ℚ)
     else (1000 : ℚ) - (none : Option ℚ).getD 600) = 400 :=
  ⟨client_payment_received_balance 1 ⟨some "Received", none, none⟩
    [⟨1, "T9", "C", 1000, 600, 0, "Pending"⟩]
    ⟨1, "T9", "C", 1000, 600, 0, "Pending"⟩ "Received" rfl rfl (by decide),
   by norm_num⟩
